import Mathlib

/-!
Verification of tinyldt: a shallow embedding of the EULUMDAT reader/writer
in `src/tiny_ldt.hpp`.

Modelling conventions:
* The C++ record fields of type `uint32_t` become `Nat` values `< 2^32`; all
  arithmetic the C++ performs on them is written with an explicit `% U32`
  (resp. `% U64` for `size_t`) wherever the C++ computation can wrap.
  `int` is modelled as the 32-bit range `[-2^31, 2^31)`, the width it has on
  all platforms this header targets.
* `TINYLDT_FPN` is `float` by default.  Its values are modelled exactly as
  rationals (the unreduced-fraction type `FPN`): no claim settled in this
  file depends on IEEE rounding, only on convertibility of a line and on the
  default value `0`.  `std::stof`
  is modelled at the grammar level by `stof?` (decimal, hex, inf/nan forms);
  an `inf`/`nan` line is convertible in C++, its IEEE value has no rational
  counterpart, so `stof?` maps it to `0` — no theorem below looks at the
  value assigned to such a line.  The `out_of_range` overflow/underflow
  exceptions of `std::stof`/`std::stoi` on syntactically valid but extreme
  literals are modelled for `stoi` (exact 32-bit range check, as thrown by
  the C++), and not modelled for `stof` (they would need IEEE semantics).
* The input stream is the list of lines `std::getline` yields; the
  "file could not be opened" branch of `load_ldt` (message
  `"Failed reading file: ..."`) is outside the model, the caller hands the
  lines over directly.
* `warn_out` is only ever assigned the one constant string
  `"Some values could not be read"`, so the decoding state carries a `Bool`
  that `load_ldt` maps back to that message.
* `err_out` plus the `bool` return value of the C++ `load_ldt` become
  `Except String`; the partially filled output record that C++ leaves behind
  on a fatal error is not observable through the model (the C++ contract is
  that the record is meaningless when `false` is returned).
-/

set_option maxRecDepth 100000

set_option synthInstance.maxSize 1000

/-- The modulus `2^32` of the `uint32_t` record fields. -/
def U32 : Nat := 4294967296

/-- The modulus `2^64` of `size_t` (the `resize` length computation). -/
def U64 : Nat := 18446744073709551616

/-- The whitespace bytes skipped by `std::stoi`/`std::stof` (default locale
`isspace`). -/
def isSpaceByte (c : Char) : Bool :=
  c = ' ' || c = '\t' || c = '\n' || c = '\r' || c = '\x0b' || c = '\x0c'

/-- Decimal digit accumulation. -/
def digitsToNat : List Char → Nat → Nat
  | [], acc => acc
  | c :: cs, acc => digitsToNat cs (acc * 10 + (c.toNat - '0'.toNat))

/-- Model of `std::stoi(s)` (base 10): skip whitespace, optional sign, at least one
decimal digit, ignore everything after the digits.  `none` models both
`std::invalid_argument` (no conversion) and `std::out_of_range` (outside the
32-bit `int` range); the `CATCH` macro in the C++ treats the two identically. -/
def stoi? (s : String) : Option Int :=
  let cs0 := s.data.dropWhile isSpaceByte
  let sgn : Int := match cs0 with | '-' :: _ => -1 | _ => 1
  let cs := match cs0 with | '+' :: r => r | '-' :: r => r | _ => cs0
  let ds := cs.takeWhile Char.isDigit
  if ds.isEmpty then none
  else
    let v : Int := sgn * (digitsToNat ds 0 : Nat)
    if -2147483648 ≤ v ∧ v ≤ 2147483647 then some v else none

/-- Conversion of the `int` result of `std::stoi` to a `uint32_t` field
(modular, per the C++ integer conversion rules). -/
def u32OfInt (i : Int) : Nat := (i % (U32 : Int)).toNat

/-- Model of `CATCH(field = std::stoi(line))` for a `uint32_t` field: the parsed value
after the `int → uint32_t` conversion, or `none` when `std::stoi` throws. -/
def pu32 (s : String) : Option Nat := (stoi? s).map u32OfInt

/-- Is `c` a hexadecimal digit? -/
def isHexDigit (c : Char) : Bool :=
  c.isDigit || ('a' ≤ c && c ≤ 'f') || ('A' ≤ c && c ≤ 'F')

/-- Value of a hexadecimal digit. -/
def hexDigitVal (c : Char) : Nat :=
  if c.isDigit then c.toNat - '0'.toNat
  else if 'a' ≤ c && c ≤ 'f' then c.toNat - 'a'.toNat + 10
  else if 'A' ≤ c && c ≤ 'F' then c.toNat - 'A'.toNat + 10
  else 0

/-- Hexadecimal digit accumulation. -/
def hexToNat : List Char → Nat → Nat
  | [], acc => acc
  | c :: cs, acc => hexToNat cs (acc * 16 + hexDigitVal c)

/-- ASCII lower-casing, for the case-insensitive `inf`/`nan` forms. -/
def asciiLower (c : Char) : Char :=
  if 'A' ≤ c && c ≤ 'Z' then Char.ofNat (c.toNat + 32) else c

/-- An exponent part after `e`/`E`/`p`/`P`: optional sign then at least one
decimal digit, else the exponent is not part of the converted prefix. -/
def expVal (cs : List Char) : Option Int :=
  let sgn : Int := match cs with | '-' :: _ => -1 | _ => 1
  let cs2 := match cs with | '+' :: r => r | '-' :: r => r | _ => cs
  let ds := cs2.takeWhile Char.isDigit
  if ds.isEmpty then none else some (sgn * (digitsToNat ds 0 : Nat))

/-- An exact rational value of a `TINYLDT_FPN` field, kept as an unreduced
fraction (numerator, positive denominator).  The codec never combines these
values arithmetically — it only parses, stores, emits and compares them — so
the unreduced representation is an exact model of the parsed literal and
keeps every concrete decoding run kernel-reducible. -/
structure FPN where
  num : Int
  den : Nat
deriving DecidableEq

/-- The `0.0f` a `TINYLDT_FPN` field is value-initialized to. -/
instance : OfNat FPN 0 := ⟨⟨0, 1⟩⟩

/-- Scale a mantissa `n/den` by `base^e`. -/
def applyExp (base : Nat) (n den : Nat) (e : Int) : Nat × Nat :=
  match e with
  | .ofNat k => (n * base ^ k, den)
  | .negSucc k => (n, den * base ^ (k + 1))

/-- A decimal mantissa `digits[.digits]` or `.digits`: its value as a
fraction `n / den` plus the unconsumed tail. -/
def decMantissa (cs : List Char) : Option (Nat × Nat × List Char) :=
  let d1 := cs.takeWhile Char.isDigit
  let r1 := cs.dropWhile Char.isDigit
  match r1 with
  | '.' :: r2 =>
    let d2 := r2.takeWhile Char.isDigit
    if d1.isEmpty ∧ d2.isEmpty then none
    else some (digitsToNat (d1 ++ d2) 0, 10 ^ d2.length, r2.dropWhile Char.isDigit)
  | _ => if d1.isEmpty then none else some (digitsToNat d1 0, 1, r1)

/-- A hexadecimal mantissa (after the `0x` prefix). -/
def hexMantissa (cs : List Char) : Option (Nat × Nat × List Char) :=
  let d1 := cs.takeWhile isHexDigit
  let r1 := cs.dropWhile isHexDigit
  match r1 with
  | '.' :: r2 =>
    let d2 := r2.takeWhile isHexDigit
    if d1.isEmpty ∧ d2.isEmpty then none
    else some (hexToNat (d1 ++ d2) 0, 16 ^ d2.length, r2.dropWhile isHexDigit)
  | _ => if d1.isEmpty then none else some (hexToNat d1 0, 1, r1)

/-- Finish a decimal conversion: mantissa and optional `e`/`E` exponent. -/
def decFinish (sgn : Int) (cs : List Char) : Option FPN :=
  match decMantissa cs with
  | none => none
  | some (n, den, r) =>
    match r with
    | 'e' :: r2 =>
      match expVal r2 with
      | some e =>
        let m := applyExp 10 n den e
        some ⟨sgn * m.1, m.2⟩
      | none => some ⟨sgn * n, den⟩
    | 'E' :: r2 =>
      match expVal r2 with
      | some e =>
        let m := applyExp 10 n den e
        some ⟨sgn * m.1, m.2⟩
      | none => some ⟨sgn * n, den⟩
    | _ => some ⟨sgn * n, den⟩

/-- Finish a `0x` conversion: hex mantissa and optional binary `p`/`P`
exponent; when no hex digit follows the `x` the converted prefix is just the
leading `0`. -/
def hexFinish (sgn : Int) (rest : List Char) : Option FPN :=
  match hexMantissa rest with
  | some (n, den, r) =>
    match r with
    | 'p' :: r2 =>
      match expVal r2 with
      | some e =>
        let m := applyExp 2 n den e
        some ⟨sgn * m.1, m.2⟩
      | none => some ⟨sgn * n, den⟩
    | 'P' :: r2 =>
      match expVal r2 with
      | some e =>
        let m := applyExp 2 n den e
        some ⟨sgn * m.1, m.2⟩
      | none => some ⟨sgn * n, den⟩
    | _ => some ⟨sgn * n, den⟩
  | none => some ⟨0, 1⟩

/-- Model of `std::stof(s)` at the grammar level,  with exact rational values
(see the header comment): `none` exactly when no conversion can be performed
(`std::invalid_argument`). -/
def stof? (s : String) : Option FPN :=
  let cs0 := s.data.dropWhile isSpaceByte
  let sgn : Int := match cs0 with | '-' :: _ => -1 | _ => 1
  let cs := match cs0 with | '+' :: r => r | '-' :: r => r | _ => cs0
  if (cs.take 3).map asciiLower = ['i', 'n', 'f'] ∨ (cs.take 3).map asciiLower = ['n', 'a', 'n'] then
    some 0
  else
    match cs with
    | '0' :: 'x' :: rest => hexFinish sgn rest
    | '0' :: 'X' :: rest => hexFinish sgn rest
    | _ => decFinish sgn cs

/-- The struct `tiny_ldt::light::lamp_data_s`. -/
structure lamp_data_s where
  number_of_lamps : Int
  type_of_lamps : String
  total_luminous_flux : Nat
  color_temperature : Nat
  color_rendering_group : Nat
  watt : FPN
deriving DecidableEq

/-- The struct `tiny_ldt::light`.  Its `uint32_t` fields are `Nat` (always `< U32` when
produced by the codec), `int` fields are `Int`, `TINYLDT_FPN` fields are `FPN`,
and the `std::array<TINYLDT_FPN, 10> dr` is a list (of length 10 in every
record the codec builds or that mirrors a C++ record). -/
structure light where
  manufacturer : String
  ltyp : Nat
  lsym : Nat
  mc : Nat
  mc1 : Nat
  mc2 : Nat
  dc : FPN
  ng : Nat
  dg : FPN
  measurement_report_number : String
  luminaire_name : String
  luminaire_number : String
  file_name : String
  date_user : String
  height_luminaire : Nat
  length_luminaire : Nat
  width_luminaire : Nat
  length_luminous_area : Nat
  width_luminous_area : Nat
  height_luminous_area_c0 : Nat
  height_luminous_area_c90 : Nat
  height_luminous_area_c180 : Nat
  height_luminous_area_c270 : Nat
  dff : FPN
  lorl : FPN
  conversion_factor : FPN
  tilt_of_luminaire : Nat
  n : Nat
  lamp_data : List lamp_data_s
  dr : List FPN
  angles_c : List FPN
  angles_g : List FPN
  luminous_intensity_distribution : List FPN
deriving DecidableEq

/-- The default-constructed `light` (all zeroes / empty, `dr` zero-filled). -/
def light0 : light :=
  { manufacturer := "", ltyp := 0, lsym := 0, mc := 0, mc1 := 0, mc2 := 0,
    dc := 0, ng := 0, dg := 0,
    measurement_report_number := "", luminaire_name := "", luminaire_number := "",
    file_name := "", date_user := "",
    height_luminaire := 0, length_luminaire := 0, width_luminaire := 0,
    length_luminous_area := 0, width_luminous_area := 0,
    height_luminous_area_c0 := 0, height_luminous_area_c90 := 0,
    height_luminous_area_c180 := 0, height_luminous_area_c270 := 0,
    dff := 0, lorl := 0, conversion_factor := 0, tilt_of_luminaire := 0,
    n := 0, lamp_data := [], dr := List.replicate 10 0,
    angles_c := [], angles_g := [], luminous_intensity_distribution := [] }

instance : Inhabited light := ⟨light0⟩

/-- The resolver `tiny_ldt::calc_mc1_mc2`.  The C++ takes the record by reference, reads
`l.lsym` and `l.mc` and writes `l.mc1`, `l.mc2`, returning `true` on the
`default:` (error) branch; here it takes `(lsym, mc)` and returns
`some (mc1, mc2)`, with `none` for the error branch.  All arithmetic is the
C++ `unsigned` arithmetic: `3*l.mc` can wrap at `2^32` (made explicit by
`% U32`); the remaining operations stay below `2^32` but the `% U32` where
the C++ adds is kept explicit. -/
def calc_mc1_mc2 (lsym mc : Nat) : Option (Nat × Nat) :=
  match lsym with
  | 0 => some (1, mc)
  | 1 => some (1, 1)
  | 2 => some (1, mc / 2 + 1)
  | 3 =>
    let m1 := 3 * mc % U32 / 4 + 1
    some (m1, (m1 + mc / 2) % U32)
  | 4 => some (1, mc / 4 + 1)
  | _ => none

/-- The `resize` length of `luminous_intensity_distribution`:
`(size_t(mc2) - size_t(mc1) + 1) * size_t(ng)` in `size_t` arithmetic. -/
def lidLen (mc1 mc2 ng : Nat) : Nat :=
  ((U64 + mc2 - mc1) % U64 + 1) % U64 * ng % U64

/-- The decoding computation: state is the remaining input lines and the
`warn_out`-was-assigned flag; a fatal error aborts with the `err_out`
message. -/
def M (α : Type) : Type := List String → Bool → Except String (α × List String × Bool)

def M.pure (a : α) : M α := fun rem w => .ok (a, rem, w)

def M.bind (m : M α) (f : α → M β) : M β := fun rem w =>
  match m rem w with
  | .ok (a, rem', w') => f a rem' w'
  | .error e => .error e

instance : Monad M where
  pure := M.pure
  bind := M.bind

/-- The `NEXT_LINE(name)` macro: take the next line, or abort with the
`err_out` message naming the field. -/
def nextLine (fn name : String) : M String := fun rem w =>
  match rem with
  | [] => .error ("Error reading <" ++ name ++ "> property: " ++ fn)
  | l :: ls => .ok (l, ls, w)

/-- Model of `NEXT_LINE(name) CATCH(field = parse(line))`: take the next line (fatal
if exhausted), then parse it; on a parse exception the field keeps its
default and `warn_out` is assigned. -/
def readCatch (fn name : String) (p : String → Option α) (d : α) : M α := fun rem w =>
  match rem with
  | [] => .error ("Error reading <" ++ name ++ "> property: " ++ fn)
  | l :: ls =>
    match p l with
    | some v => .ok (v, ls, w)
    | none => .ok (d, ls, true)

/-- A block of `k` `NEXT_LINE`+`CATCH` reads (the `for` loops over a resized
vector). -/
def readBlock (fn name : String) (p : String → Option α) (d : α) : Nat → M (List α)
  | 0 => M.pure []
  | k + 1 =>
    M.bind (readCatch fn name p d) fun v =>
      M.bind (readBlock fn name p d k) fun vs =>
        M.pure (v :: vs)

/-- A block of `k` plain string reads (the `type_of_lamps` loop). -/
def readStrBlock (fn name : String) : Nat → M (List String)
  | 0 => M.pure []
  | k + 1 =>
    M.bind (nextLine fn name) fun v =>
      M.bind (readStrBlock fn name k) fun vs =>
        M.pure (v :: vs)

/-- Abort with a fatal error message (`err_out = e; return false;`). -/
def throwErr (e : String) : M α := fun _ _ => .error e

/-- The `err_out` message of the invalid-symmetry branch. -/
def symErrMsg : String := "Error reading light symmetry"

/-- The one string ever assigned to `warn_out`. -/
def warnMsg : String := "Some values could not be read"

/-- Reassemble the six parallel per-lamp blocks into `lamp_data` (the C++
fills the six members of each `lamp_data_s` in six passes over the vector). -/
def zipLamps : List Int → List String → List Nat → List Nat → List Nat → List FPN →
    List lamp_data_s
  | a :: as, b :: bs, c :: cs, d :: ds, e :: es, f :: fs =>
    { number_of_lamps := a, type_of_lamps := b, total_luminous_flux := c,
      color_temperature := d, color_rendering_group := e, watt := f }
      :: zipLamps as bs cs ds es fs
  | _, _, _, _, _, _ => []

/-- Lines 5 onward of `load_ldt`, after `calc_mc1_mc2` has succeeded. -/
def loadRest (fn manufacturer : String) (ltyp lsym mc mc1 mc2 : Nat) : M light := do
  let dc ← readCatch fn "Dc" stof? 0
  let ng ← readCatch fn "Ng" pu32 0
  let dg ← readCatch fn "Dg" stof? 0
  let mrn ← nextLine fn "Measurement report number"
  let lname ← nextLine fn "Luminaire name"
  let lnum ← nextLine fn "Luminaire number"
  let fname ← nextLine fn "File name"
  let duser ← nextLine fn "Date/user"
  let lengthLum ← readCatch fn "Length/diameter of luminaire" pu32 0
  let widthLum ← readCatch fn "Width of luminaire" pu32 0
  let heightLum ← readCatch fn "Height of luminaire" pu32 0
  let lengthArea ← readCatch fn "Length/diameter of luminous area" pu32 0
  let widthArea ← readCatch fn "Width of luminous area" pu32 0
  let hc0 ← readCatch fn "Height of luminous area C0-plane" pu32 0
  let hc90 ← readCatch fn "Height of luminous area C90-plane" pu32 0
  let hc180 ← readCatch fn "Height of luminous area C180-plane" pu32 0
  let hc270 ← readCatch fn "Height of luminous area C270-plane" pu32 0
  let dff ← readCatch fn "Downward flux fraction" stof? 0
  let lorl ← readCatch fn "Light output ratio luminaire" stof? 0
  let conv ← readCatch fn "Conversion factor for luminous intensities" stof? 0
  let tilt ← readCatch fn "Tilt of luminaire during measurement" pu32 0
  let n ← readCatch fn "Number of standard sets of lamps" pu32 0
  let nums ← readBlock fn "Number of lamps" stoi? 0 n
  let types ← readStrBlock fn "Type of lamps" n
  let fluxes ← readBlock fn "Total luminous flux" pu32 0 n
  let cts ← readBlock fn "Color appearance" pu32 0 n
  let crgs ← readBlock fn "Color rendering group" pu32 0 n
  let watts ← readBlock fn "Wattage including ballast" stof? 0 n
  let drs ← readBlock fn "Direct ratios for room indices k = 0.6 ... 5" stof? 0 10
  let acs ← readBlock fn "Angles C" stof? 0 mc
  let ags ← readBlock fn "Angles G" stof? 0 ng
  let lid ← readBlock fn "Luminous intensity distribution" stof? 0 (lidLen mc1 mc2 ng)
  pure { manufacturer := manufacturer, ltyp := ltyp, lsym := lsym, mc := mc,
         mc1 := mc1, mc2 := mc2, dc := dc, ng := ng, dg := dg,
         measurement_report_number := mrn, luminaire_name := lname,
         luminaire_number := lnum, file_name := fname, date_user := duser,
         height_luminaire := heightLum, length_luminaire := lengthLum,
         width_luminaire := widthLum, length_luminous_area := lengthArea,
         width_luminous_area := widthArea, height_luminous_area_c0 := hc0,
         height_luminous_area_c90 := hc90, height_luminous_area_c180 := hc180,
         height_luminous_area_c270 := hc270, dff := dff, lorl := lorl,
         conversion_factor := conv, tilt_of_luminaire := tilt, n := n,
         lamp_data := zipLamps nums types fluxes cts crgs watts, dr := drs,
         angles_c := acs, angles_g := ags,
         luminous_intensity_distribution := lid }

/-- Line 4 (`Mc`) and the interleaved `calc_mc1_mc2` call; its `true` return
aborts with `"Error reading light symmetry"`. -/
def loadFromMc (fn manufacturer : String) (ltyp lsym : Nat) : M light := do
  let mc ← readCatch fn "Mc" pu32 0
  match calc_mc1_mc2 lsym mc with
  | none => throwErr symErrMsg
  | some (mc1, mc2) => loadRest fn manufacturer ltyp lsym mc mc1 mc2

/-- Lines 1–3 of `load_ldt` and then the rest. -/
def load_run (fn : String) : M light := do
  let manufacturer ← nextLine fn "Manufacturer"
  let ltyp ← readCatch fn "Type" pu32 0
  let lsym ← readCatch fn "Symmetry" pu32 0
  loadFromMc fn manufacturer ltyp lsym

/-- The decoder `tiny_ldt::load_ldt`: from the file name (used only in error messages)
and the lines of the file, the record and the optional `warn_out` message, or
the fatal `err_out` message. -/
def load_ldt (fn : String) (input : List String) : Except String (light × Option String) :=
  match load_run fn input false with
  | .ok (r, _, w) => .ok (r, if w then some warnMsg else none)
  | .error e => .error e

/-- The encoder `tiny_ldt::write_ldt`: the lines written to the stream, in order.
`fmtF` models `ss << v` for a `TINYLDT_FPN` value at the stream's precision
(the numeric text itself is IEEE formatting, outside this model);
`uint32_t`/`int` values print as plain decimal.  The destination-open
failure branch (`return false` with nothing written) is not modelled: the
function returns the emitted line list, which does not depend on the
destination. -/
def write_ldt (ldt : light) (fmtF : FPN → String) : List String :=
  [ldt.manufacturer, toString ldt.ltyp, toString ldt.lsym, toString ldt.mc,
   fmtF ldt.dc, toString ldt.ng, fmtF ldt.dg,
   ldt.measurement_report_number, ldt.luminaire_name, ldt.luminaire_number,
   ldt.file_name, ldt.date_user,
   toString ldt.length_luminaire, toString ldt.width_luminaire,
   toString ldt.height_luminaire, toString ldt.length_luminous_area,
   toString ldt.width_luminous_area, toString ldt.height_luminous_area_c0,
   toString ldt.height_luminous_area_c90, toString ldt.height_luminous_area_c180,
   toString ldt.height_luminous_area_c270,
   fmtF ldt.dff, fmtF ldt.lorl, fmtF ldt.conversion_factor,
   toString ldt.tilt_of_luminaire, toString ldt.n]
  ++ ldt.lamp_data.map (fun ld => toString ld.number_of_lamps)
  ++ ldt.lamp_data.map (fun ld => ld.type_of_lamps)
  ++ ldt.lamp_data.map (fun ld => toString ld.total_luminous_flux)
  ++ ldt.lamp_data.map (fun ld => toString ld.color_temperature)
  ++ ldt.lamp_data.map (fun ld => toString ld.color_rendering_group)
  ++ ldt.lamp_data.map (fun ld => fmtF ld.watt)
  ++ ldt.dr.map fmtF
  ++ ldt.angles_c.map fmtF
  ++ ldt.angles_g.map fmtF
  ++ ldt.luminous_intensity_distribution.map fmtF

/-- Decidable equality for `Except`, so that concrete decoding outcomes can
be checked by `decide`. -/
instance {e a : Type} [DecidableEq e] [DecidableEq a] : DecidableEq (Except e a)
  | .ok x, .ok y =>
    match decEq x y with
    | isTrue h => isTrue (by rw [h])
    | isFalse h => isFalse (by intro hh; injection hh with h2; exact h h2)
  | .ok _, .error _ => isFalse (by intro h; exact Except.noConfusion h)
  | .error _, .ok _ => isFalse (by intro h; exact Except.noConfusion h)
  | .error x, .error y =>
    match decEq x y with
    | isTrue h => isTrue (by rw [h])
    | isFalse h => isFalse (by intro hh; injection hh with h2; exact h h2)

/-- The value a `CATCH` read leaves in the field: the parsed value, or the
default when the conversion throws. -/
def parsedOr (p : String → Option α) (d : α) (s : String) : α := (p s).getD d

/-- Did some line of a block fail to convert (so that `warn_out` was
assigned)? -/
def anyFail (p : String → Option α) (B : List String) : Bool :=
  B.any fun s => (p s).isNone

/-- A well-formed 26-line header: no symmetry (code 0), 24 C-planes, 19
G-angles, one lamp set — the concrete scenario of the spec. -/
def hdr24 : List String :=
  ["Manu", "0", "0", "24", "0", "19", "0",
   "rep", "name", "num", "file", "date",
   "0", "0", "0", "0", "0", "0", "0", "0", "0",
   "0", "0", "0", "0", "1"]

/-- The concrete scenario file: the header and then 6·1 lamp lines, 10
direct-ratio lines, 24 C-angles, 19 G-angles and 456 intensity lines, each
holding `"0"`. -/
def F24 : List String := hdr24 ++ List.replicate 515 "0"

/-- A minimal valid file: vertical-axis symmetry (code 1), one C-plane, one
G-angle, one lamp set; 26 + 6 + 10 + 1 + 1 + 1 = 45 lines. -/
def hdrMin : List String :=
  ["Manu", "0", "1", "1", "0", "1", "0",
   "rep", "name", "num", "file", "date",
   "0", "0", "0", "0", "0", "0", "0", "0", "0",
   "0", "0", "0", "0", "1"]

/-- The minimal valid file. -/
def FMin : List String := hdrMin ++ List.replicate 19 "0"

/-- A header with plane count 0 under symmetry code 0 (and one G-angle, no
lamp sets): 26 + 0 + 10 + 0 + 1 + 0 = 37 lines are consumed. -/
def hdrZero : List String :=
  ["Manu", "0", "0", "0", "0", "1", "0",
   "rep", "name", "num", "file", "date",
   "0", "0", "0", "0", "0", "0", "0", "0", "0",
   "0", "0", "0", "0", "0"]

/-- The plane-count-0 file, with two extra lines that must stay
unconsumed. -/
def FZero : List String := hdrZero ++ List.replicate 11 "0" ++ ["junk1", "junk2"]

/-- The shape of every `NEXT_LINE` (truncation) error message. -/
def TruncErr (fn e : String) : Prop :=
  ∃ name, e = "Error reading <" ++ name ++ "> property: " ++ fn

/-- Locality: on success a step consumes a prefix of the stream, and its
outcome depends only on that prefix. -/
def MExt (m : M α) : Prop :=
  ∀ xs w a rem w', m xs w = .ok (a, rem, w') →
    ∃ c, c ≤ xs.length ∧ rem = xs.drop c ∧
      ∀ zs, m (xs.take c ++ zs) w = .ok (a, zs, w')

/-- Truncation: on any strictly shorter prefix of the lines a successful run
consumed, the step fails with a `NEXT_LINE` error. -/
def MShort (fn : String) (m : M α) : Prop :=
  ∀ xs w a rem w', m xs w = .ok (a, rem, w') →
    ∀ k, k < xs.length - rem.length →
      ∃ e, m (xs.take k) w = .error e ∧ TruncErr fn e

/-- Every fatal error is a `NEXT_LINE` message or the invalid-symmetry
message. -/
def MErr (fn : String) (m : M α) : Prop :=
  ∀ xs w e, m xs w = .error e → TruncErr fn e ∨ e = symErrMsg

/-- The warn flag is write-only: a step started with flag `w` behaves as
started with `false`, with `w` OR-ed into the resulting flag. -/
def MWarn (m : M α) : Prop :=
  ∀ xs w, m xs w =
    match m xs false with
    | .ok (a, rem, w0) => .ok (a, rem, w || w0)
    | .error e => .error e

/-- A stronger error form: every fatal error of this step is a `NEXT_LINE`
truncation message (holds for all of `load_ldt` except the
`calc_mc1_mc2` check, which is the only source of the symmetry message). -/
def MTrunc (fn : String) (m : M α) : Prop :=
  ∀ xs w e, m xs w = .error e → TruncErr fn e

/-- All four laws together. -/
structure MLaw (fn : String) (m : M α) : Prop where
  ext : MExt m
  short : MShort fn m
  err : MErr fn m
  warn : MWarn m

/-! ## C1, C2: the symmetry resolver -/

/-- C1 (counterexample): the §4.1 table read over every representable
plane count fails for symmetry code 3: at `mc = 2^31` the C++ computes
`3*mc` in `uint32_t`, which wraps, giving `mc1 = 536870913` instead of the
table's `3·mc/4 + 1 = 1610612737`. -/
theorem C1_counterexample :
    calc_mc1_mc2 3 2147483648 = some (536870913, 1610612737) ∧
    536870913 ≠ 3 * 2147483648 / 4 + 1 := by
  constructor
  · rfl
  · decide

/-- C1 (amended): for every symmetry code in `{0,1,2,3,4}` and every
representable plane count `mc < 2^32`, `calc_mc1_mc2` succeeds; for codes
0, 1, 2, 4 it returns exactly the pair of the §4.1 table (truncating
division), and for code 3 it returns the table's pair
`(3·mc/4 + 1, 3·mc/4 + 1 + mc/2)` whenever `3·mc` does not overflow
`uint32_t` (`3·mc < 2^32`); in general the code-3 pair uses `3·mc mod 2^32`
in place of `3·mc`. -/
theorem C1_theorem (mc : Nat) (hmc : mc < U32) :
    calc_mc1_mc2 0 mc = some (1, mc) ∧
    calc_mc1_mc2 1 mc = some (1, 1) ∧
    calc_mc1_mc2 2 mc = some (1, mc / 2 + 1) ∧
    calc_mc1_mc2 4 mc = some (1, mc / 4 + 1) ∧
    calc_mc1_mc2 3 mc = some (3 * mc % U32 / 4 + 1, 3 * mc % U32 / 4 + 1 + mc / 2) ∧
    (3 * mc < U32 →
      calc_mc1_mc2 3 mc = some (3 * mc / 4 + 1, 3 * mc / 4 + 1 + mc / 2)) := by
  have h3 : 3 * mc % U32 < U32 := Nat.mod_lt _ (by norm_num [U32])
  refine ⟨rfl, rfl, rfl, rfl, ?_, ?_⟩
  · simp only [calc_mc1_mc2, Option.some.injEq, Prod.mk.injEq]
    have hlt : 3 * mc % U32 / 4 + 1 + mc / 2 < U32 := by
      simp only [U32] at h3 hmc ⊢
      omega
    exact ⟨trivial, Nat.mod_eq_of_lt hlt⟩
  · intro hov
    have heq : 3 * mc % U32 = 3 * mc := Nat.mod_eq_of_lt hov
    simp only [calc_mc1_mc2, Option.some.injEq, Prod.mk.injEq, heq]
    have hlt : 3 * mc / 4 + 1 + mc / 2 < U32 := by
      simp only [U32] at hov hmc ⊢
      omega
    exact ⟨trivial, Nat.mod_eq_of_lt hlt⟩

/-- C1 (witness): the theorem applied at `mc = 24`. -/
theorem C1_witness : calc_mc1_mc2 0 24 = some (1, 24) :=
  (C1_theorem 24 (by norm_num [U32])).1

/-- C2 (counterexample): `mc1 ≤ mc2 ≤ mc` fails on the code: for code 3 with
`mc = 24` the resolver returns `(19, 31)` and `31 > 24`; for code 0 with
`mc = 0` it returns `(1, 0)` and `1 > 0`. -/
theorem C2_counterexample :
    (calc_mc1_mc2 3 24 = some (19, 31) ∧ ¬(31 : Nat) ≤ 24) ∧
    (calc_mc1_mc2 0 0 = some (1, 0) ∧ ¬(1 : Nat) ≤ 0) := by
  refine ⟨⟨rfl, by decide⟩, ⟨rfl, by decide⟩⟩

/-- C2 (amended): for symmetry codes 0, 1, 2, 4 and every plane count
`1 ≤ mc < 2^32`, the resolver's output satisfies `mc1 ≤ mc2 ≤ mc`; for
code 3 only `mc1 ≤ mc2` holds (`mc2 = mc1 + mc/2` exceeds `mc` for all
`mc ≥ 2`), and at `mc = 0` every code violates the chain. -/
theorem C2_theorem (mc : Nat) (hmc : mc < U32) (h1 : 1 ≤ mc) :
    (∀ lsym, (lsym = 0 ∨ lsym = 1 ∨ lsym = 2 ∨ lsym = 4) →
      ∀ mc1 mc2, calc_mc1_mc2 lsym mc = some (mc1, mc2) →
        mc1 ≤ mc2 ∧ mc2 ≤ mc) ∧
    (∀ mc1 mc2, calc_mc1_mc2 3 mc = some (mc1, mc2) → mc1 ≤ mc2) := by
  constructor
  · rintro lsym (rfl | rfl | rfl | rfl) mc1 mc2 h <;>
      simp only [calc_mc1_mc2, Option.some.injEq, Prod.mk.injEq] at h <;>
      obtain ⟨rfl, rfl⟩ := h <;> omega
  · intro mc1 mc2 h
    simp only [calc_mc1_mc2, Option.some.injEq, Prod.mk.injEq] at h
    obtain ⟨rfl, rfl⟩ := h
    have h3 : 3 * mc % U32 < U32 := Nat.mod_lt _ (by norm_num [U32])
    have hlt : 3 * mc % U32 / 4 + 1 + mc / 2 < U32 := by
      simp only [U32] at h3 hmc ⊢
      omega
    rw [Nat.mod_eq_of_lt hlt]
    exact Nat.le_add_right _ _

/-- C2 (witness): the theorem applied at code 2, `mc = 24`. -/
theorem C2_witness : (1 : Nat) ≤ 13 ∧ (13 : Nat) ≤ 24 :=
  (C2_theorem 24 (by norm_num [U32]) (by norm_num)).1 2 (by norm_num) 1 13 rfl

/-! ## Behavioural laws of the decoding computations

Every building block of `load_ldt` is *local* (consumes a prefix of the
stream and depends only on it), fails on truncated prefixes with a
`NEXT_LINE` message, only ever produces `NEXT_LINE` messages or the
invalid-symmetry message, and treats the warn flag write-only. -/

theorem bind_is (m : M α) (f : α → M β) : m >>= f = M.bind m f := rfl

theorem pure_is (a : α) : (pure a : M α) = M.pure a := rfl

theorem MLaw_pure (fn : String) (a : α) : MLaw fn (M.pure a) := by
  constructor
  · intro xs w a' rem w' h
    simp only [M.pure, Except.ok.injEq, Prod.mk.injEq] at h
    obtain ⟨rfl, rfl, rfl⟩ := h
    exact ⟨0, Nat.zero_le _, rfl, fun zs => rfl⟩
  · intro xs w a' rem w' h k hk
    simp only [M.pure, Except.ok.injEq, Prod.mk.injEq] at h
    obtain ⟨rfl, rfl, rfl⟩ := h
    omega
  · intro xs w e h
    simp only [M.pure] at h
    exact Except.noConfusion h
  · intro xs w
    simp only [M.pure, Bool.or_false]

theorem MLaw_throwErr (fn : String) : MLaw fn (throwErr (α := α) symErrMsg) := by
  constructor
  · intro xs w a rem w' h
    simp only [throwErr] at h
    exact Except.noConfusion h
  · intro xs w a rem w' h
    simp only [throwErr] at h
    exact Except.noConfusion h
  · intro xs w e h
    simp only [throwErr, Except.error.injEq] at h
    exact Or.inr h.symm
  · intro xs w
    simp only [throwErr]

theorem MLaw_bind {fn : String} {m : M α} {f : α → M β}
    (hm : MLaw fn m) (hf : ∀ a, MLaw fn (f a)) : MLaw fn (M.bind m f) := by
  constructor
  · -- MExt
    intro xs w b rem w2 h
    simp only [M.bind] at h
    cases h1 : m xs w with
    | error e =>
      rw [h1] at h
      all_goals exact absurd h (by simp)
    | ok v =>
      obtain ⟨a, rem1, w1⟩ := v
      rw [h1] at h
      obtain ⟨c1, hc1, hrem1, hext1⟩ := hm.ext xs w a rem1 w1 h1
      obtain ⟨c2, hc2, hrem2, hext2⟩ := (hf a).ext rem1 w1 b rem w2 h
      refine ⟨c1 + c2, ?_, ?_, ?_⟩
      · have := List.length_drop c1 xs
        rw [hrem1] at hc2
        omega
      · rw [hrem2, hrem1, List.drop_drop]
      · intro zs
        have hsplit : xs.take (c1 + c2) = xs.take c1 ++ (xs.drop c1).take c2 :=
          List.take_add xs c1 c2
        rw [hsplit, List.append_assoc]
        simp only [M.bind]
        rw [hext1 ((xs.drop c1).take c2 ++ zs)]
        rw [← hrem1]
        exact hext2 zs
  · -- MShort
    intro xs w b rem w2 h k hk
    simp only [M.bind] at h
    cases h1 : m xs w with
    | error e =>
      rw [h1] at h
      all_goals exact absurd h (by simp)
    | ok v =>
      obtain ⟨a, rem1, w1⟩ := v
      rw [h1] at h
      obtain ⟨c1, hc1, hrem1, hext1⟩ := hm.ext xs w a rem1 w1 h1
      obtain ⟨c2, hc2, hrem2, hext2⟩ := (hf a).ext rem1 w1 b rem w2 h
      have hlen1 : rem1.length = xs.length - c1 := by rw [hrem1]; exact List.length_drop c1 xs
      have hlenr : rem.length = rem1.length - c2 := by rw [hrem2]; exact List.length_drop c2 rem1
      by_cases hcase : k < c1
      · have hk1 : k < xs.length - rem1.length := by omega
        obtain ⟨e, he, hte⟩ := hm.short xs w a rem1 w1 h1 k hk1
        refine ⟨e, ?_, hte⟩
        simp only [M.bind, he]
      · have hk2 : k - c1 < rem1.length - rem.length := by omega
        obtain ⟨e, he, hte⟩ := (hf a).short rem1 w1 b rem w2 h (k - c1) hk2
        refine ⟨e, ?_, hte⟩
        have hsplit : xs.take k = xs.take c1 ++ (xs.drop c1).take (k - c1) := by
          have hkeq : k = c1 + (k - c1) := by omega
          conv_lhs => rw [hkeq]
          rw [List.take_add]
        rw [hsplit]
        simp only [M.bind]
        rw [hext1 ((xs.drop c1).take (k - c1))]
        rw [← hrem1]
        exact he
  · -- MErr
    intro xs w e h
    simp only [M.bind] at h
    cases h1 : m xs w with
    | error e1 =>
      rw [h1] at h
      simp only [Except.error.injEq] at h
      exact h ▸ hm.err xs w e1 h1
    | ok v =>
      obtain ⟨a, rem1, w1⟩ := v
      rw [h1] at h
      exact (hf a).err rem1 w1 e h
  · -- MWarn
    intro xs w
    simp only [M.bind]
    rw [hm.warn xs w]
    cases h0 : m xs false with
    | error e => simp
    | ok v =>
      obtain ⟨a, rem1, w0⟩ := v
      simp only
      rw [(hf a).warn rem1 (w || w0), (hf a).warn rem1 w0]
      cases h2 : f a rem1 false with
      | error e => simp
      | ok v2 =>
        obtain ⟨b, rem2, w1⟩ := v2
        simp only [Bool.or_assoc]

theorem MLaw_nextLine (fn name : String) : MLaw fn (nextLine fn name) := by
  constructor
  · intro xs w a rem w' h
    cases xs with
    | nil => simp only [nextLine] at h; exact Except.noConfusion h
    | cons l ls =>
      simp only [nextLine, Except.ok.injEq, Prod.mk.injEq] at h
      obtain ⟨rfl, rfl, rfl⟩ := h
      exact ⟨1, by simp, rfl, fun zs => rfl⟩
  · intro xs w a rem w' h k hk
    cases xs with
    | nil => simp only [nextLine] at h; exact Except.noConfusion h
    | cons l ls =>
      simp only [nextLine, Except.ok.injEq, Prod.mk.injEq] at h
      obtain ⟨rfl, rfl, rfl⟩ := h
      simp only [List.length_cons] at hk
      have hk0 : k = 0 := by omega
      subst hk0
      exact ⟨_, rfl, name, rfl⟩
  · intro xs w e h
    cases xs with
    | nil =>
      simp only [nextLine, Except.error.injEq] at h
      exact Or.inl ⟨name, h.symm⟩
    | cons l ls =>
      simp only [nextLine] at h
      exact Except.noConfusion h
  · intro xs w
    cases xs <;> simp [nextLine]

theorem MLaw_readCatch (fn name : String) (p : String → Option α) (d : α) :
    MLaw fn (readCatch fn name p d) := by
  constructor
  · intro xs w a rem w' h
    cases xs with
    | nil => simp only [readCatch] at h; exact Except.noConfusion h
    | cons l ls =>
      cases hp : p l with
      | some v =>
        simp only [readCatch, hp, Except.ok.injEq, Prod.mk.injEq] at h
        obtain ⟨rfl, rfl, rfl⟩ := h
        exact ⟨1, by simp, rfl, fun zs => by simp [readCatch, hp]⟩
      | none =>
        simp only [readCatch, hp, Except.ok.injEq, Prod.mk.injEq] at h
        obtain ⟨rfl, rfl, rfl⟩ := h
        exact ⟨1, by simp, rfl, fun zs => by simp [readCatch, hp]⟩
  · intro xs w a rem w' h k hk
    cases xs with
    | nil => simp only [readCatch] at h; exact Except.noConfusion h
    | cons l ls =>
      have hrem : rem = ls := by
        cases hp : p l <;> simp only [readCatch, hp, Except.ok.injEq, Prod.mk.injEq] at h <;>
          exact h.2.1.symm
      subst hrem
      simp only [List.length_cons] at hk
      have hk0 : k = 0 := by omega
      subst hk0
      exact ⟨_, rfl, name, rfl⟩
  · intro xs w e h
    cases xs with
    | nil =>
      simp only [readCatch, Except.error.injEq] at h
      exact Or.inl ⟨name, h.symm⟩
    | cons l ls =>
      cases hp : p l <;> simp only [readCatch, hp] at h <;> exact Except.noConfusion h
  · intro xs w
    cases xs with
    | nil => simp only [readCatch]
    | cons l ls => cases hp : p l <;> simp [readCatch, hp]

theorem MLaw_readBlock (fn name : String) (p : String → Option α) (d : α) :
    ∀ k, MLaw fn (readBlock fn name p d k) := by
  intro k
  induction k with
  | zero => exact MLaw_pure fn []
  | succ k ih =>
    refine MLaw_bind (MLaw_readCatch fn name p d) fun v => ?_
    exact MLaw_bind ih fun vs => MLaw_pure fn (v :: vs)

theorem MLaw_readStrBlock (fn name : String) :
    ∀ k, MLaw fn (readStrBlock fn name k) := by
  intro k
  induction k with
  | zero => exact MLaw_pure fn []
  | succ k ih =>
    refine MLaw_bind (MLaw_nextLine fn name) fun v => ?_
    exact MLaw_bind ih fun vs => MLaw_pure fn (v :: vs)

theorem MLaw_loadRest (fn manufacturer : String) (ltyp lsym mc mc1 mc2 : Nat) :
    MLaw fn (loadRest fn manufacturer ltyp lsym mc mc1 mc2) := by
  unfold loadRest
  simp only [bind_is, pure_is]
  repeat
    first
    | exact MLaw_pure _ _
    | exact MLaw_readCatch _ _ _ _
    | exact MLaw_nextLine _ _
    | exact MLaw_readBlock _ _ _ _ _
    | exact MLaw_readStrBlock _ _ _
    | refine MLaw_bind ?_ (fun x => ?_)

theorem MLaw_loadFromMc (fn manufacturer : String) (ltyp lsym : Nat) :
    MLaw fn (loadFromMc fn manufacturer ltyp lsym) := by
  unfold loadFromMc
  simp only [bind_is, pure_is]
  refine MLaw_bind (MLaw_readCatch _ _ _ _) fun mc => ?_
  cases h : calc_mc1_mc2 lsym mc with
  | none => exact MLaw_throwErr fn
  | some v =>
    obtain ⟨m1, m2⟩ := v
    exact MLaw_loadRest fn manufacturer ltyp lsym mc m1 m2

theorem MLaw_load_run (fn : String) : MLaw fn (load_run fn) := by
  unfold load_run
  simp only [bind_is, pure_is]
  refine MLaw_bind (MLaw_nextLine _ _) fun manufacturer => ?_
  refine MLaw_bind (MLaw_readCatch _ _ _ _) fun ltyp => ?_
  refine MLaw_bind (MLaw_readCatch _ _ _ _) fun lsym => ?_
  exact MLaw_loadFromMc fn manufacturer ltyp lsym

/-- The record `FMin` decodes to. -/
def recMin : light :=
  { manufacturer := "Manu", ltyp := 0, lsym := 1, mc := 1, mc1 := 1, mc2 := 1,
    dc := 0, ng := 1, dg := 0,
    measurement_report_number := "rep", luminaire_name := "name",
    luminaire_number := "num", file_name := "file", date_user := "date",
    height_luminaire := 0, length_luminaire := 0, width_luminaire := 0,
    length_luminous_area := 0, width_luminous_area := 0,
    height_luminous_area_c0 := 0, height_luminous_area_c90 := 0,
    height_luminous_area_c180 := 0, height_luminous_area_c270 := 0,
    dff := 0, lorl := 0, conversion_factor := 0, tilt_of_luminaire := 0,
    n := 1,
    lamp_data := [{ number_of_lamps := 0, type_of_lamps := "0",
                    total_luminous_flux := 0, color_temperature := 0,
                    color_rendering_group := 0, watt := 0 }],
    dr := List.replicate 10 0, angles_c := [0], angles_g := [0],
    luminous_intensity_distribution := [0] }

/-- Apply `f` to the `i`-th lamp record, if present. -/
def setLamp (r : light) (i : Nat) (f : lamp_data_s → lamp_data_s) : light :=
  match r.lamp_data[i]? with
  | some e => { r with lamp_data := r.lamp_data.set i (f e) }
  | none => r

/-- The numeric field lines of a decoded file other than the four structural
lines (symmetry code, plane count `Mc`, sample count `Ng`, lamp-set count)
whose values decide how later lines are consumed. -/
inductive NumPos where
  | ltyp | dc | dg
  | lengthLum | widthLum | heightLum | lengthArea | widthArea
  | hc0 | hc90 | hc180 | hc270
  | dff | lorl | conv | tilt
  | lampNum (i : Nat) | lampFlux (i : Nat) | lampCt (i : Nat)
  | lampCrg (i : Nat) | lampWatt (i : Nat)
  | drv (i : Nat) | acv (i : Nat) | agv (i : Nat) | lidv (i : Nat)
deriving DecidableEq

/-- The 0-based index of the line holding the field, computed from the
record's counts. -/
def NumPos.idx : NumPos → light → Nat
  | .ltyp, _ => 1
  | .dc, _ => 4
  | .dg, _ => 6
  | .lengthLum, _ => 12
  | .widthLum, _ => 13
  | .heightLum, _ => 14
  | .lengthArea, _ => 15
  | .widthArea, _ => 16
  | .hc0, _ => 17
  | .hc90, _ => 18
  | .hc180, _ => 19
  | .hc270, _ => 20
  | .dff, _ => 21
  | .lorl, _ => 22
  | .conv, _ => 23
  | .tilt, _ => 24
  | .lampNum i, _ => 26 + i
  | .lampFlux i, r => 26 + (2 * r.n + i)
  | .lampCt i, r => 26 + (3 * r.n + i)
  | .lampCrg i, r => 26 + (4 * r.n + i)
  | .lampWatt i, r => 26 + (5 * r.n + i)
  | .drv i, r => 26 + (6 * r.n + i)
  | .acv i, r => 26 + (6 * r.n + 10 + i)
  | .agv i, r => 26 + (6 * r.n + 10 + r.mc + i)
  | .lidv i, r => 26 + (6 * r.n + 10 + r.mc + r.ng + i)

/-- Is the indexed position inside its block? -/
def NumPos.valid : NumPos → light → Prop
  | .lampNum i, r => i < r.n
  | .lampFlux i, r => i < r.n
  | .lampCt i, r => i < r.n
  | .lampCrg i, r => i < r.n
  | .lampWatt i, r => i < r.n
  | .drv i, _ => i < 10
  | .acv i, r => i < r.mc
  | .agv i, r => i < r.ng
  | .lidv i, r => i < lidLen r.mc1 r.mc2 r.ng
  | _, _ => True

/-- Does `s` fail to convert to the field's numeric type? -/
def NumPos.fails : NumPos → String → Bool
  | .dc, s => (stof? s).isNone
  | .dg, s => (stof? s).isNone
  | .dff, s => (stof? s).isNone
  | .lorl, s => (stof? s).isNone
  | .conv, s => (stof? s).isNone
  | .lampWatt _, s => (stof? s).isNone
  | .drv _, s => (stof? s).isNone
  | .acv _, s => (stof? s).isNone
  | .agv _, s => (stof? s).isNone
  | .lidv _, s => (stof? s).isNone
  | _, s => (stoi? s).isNone

/-- The record with the field at this position reset to its zero default. -/
def NumPos.zero : NumPos → light → light
  | .ltyp, r => { r with ltyp := 0 }
  | .dc, r => { r with dc := 0 }
  | .dg, r => { r with dg := 0 }
  | .lengthLum, r => { r with length_luminaire := 0 }
  | .widthLum, r => { r with width_luminaire := 0 }
  | .heightLum, r => { r with height_luminaire := 0 }
  | .lengthArea, r => { r with length_luminous_area := 0 }
  | .widthArea, r => { r with width_luminous_area := 0 }
  | .hc0, r => { r with height_luminous_area_c0 := 0 }
  | .hc90, r => { r with height_luminous_area_c90 := 0 }
  | .hc180, r => { r with height_luminous_area_c180 := 0 }
  | .hc270, r => { r with height_luminous_area_c270 := 0 }
  | .dff, r => { r with dff := 0 }
  | .lorl, r => { r with lorl := 0 }
  | .conv, r => { r with conversion_factor := 0 }
  | .tilt, r => { r with tilt_of_luminaire := 0 }
  | .lampNum i, r => setLamp r i fun e => { e with number_of_lamps := 0 }
  | .lampFlux i, r => setLamp r i fun e => { e with total_luminous_flux := 0 }
  | .lampCt i, r => setLamp r i fun e => { e with color_temperature := 0 }
  | .lampCrg i, r => setLamp r i fun e => { e with color_rendering_group := 0 }
  | .lampWatt i, r => setLamp r i fun e => { e with watt := 0 }
  | .drv i, r => { r with dr := r.dr.set i 0 }
  | .acv i, r => { r with angles_c := r.angles_c.set i 0 }
  | .agv i, r => { r with angles_g := r.angles_g.set i 0 }
  | .lidv i, r =>
    { r with luminous_intensity_distribution :=
        r.luminous_intensity_distribution.set i 0 }

/-- The string field lines of a decoded file. -/
inductive StrPos where
  | manufacturer | mrn | lname | lnum | fname | duser | lampType (i : Nat)
deriving DecidableEq

/-- The 0-based index of the line holding the string field. -/
def StrPos.idx : StrPos → light → Nat
  | .manufacturer, _ => 0
  | .mrn, _ => 7
  | .lname, _ => 8
  | .lnum, _ => 9
  | .fname, _ => 10
  | .duser, _ => 11
  | .lampType i, r => 26 + (r.n + i)

/-- Is the indexed position inside its block? -/
def StrPos.valid : StrPos → light → Prop
  | .lampType i, r => i < r.n
  | _, _ => True

/-- The record with the string field at this position replaced by `s`. -/
def StrPos.store : StrPos → light → String → light
  | .manufacturer, r, s => { r with manufacturer := s }
  | .mrn, r, s => { r with measurement_report_number := s }
  | .lname, r, s => { r with luminaire_name := s }
  | .lnum, r, s => { r with luminaire_number := s }
  | .fname, r, s => { r with file_name := s }
  | .duser, r, s => { r with date_user := s }
  | .lampType i, r, s => setLamp r i fun e => { e with type_of_lamps := s }

/-! ## Step equations and inversions -/

theorem nextLine_cons (fn name l : String) (ls : List String) (w : Bool) :
    nextLine fn name (l :: ls) w = .ok (l, ls, w) := rfl

theorem readCatch_cons (fn name : String) (p : String → Option α) (d : α)
    (l : String) (ls : List String) (w : Bool) :
    readCatch fn name p d (l :: ls) w = .ok (parsedOr p d l, ls, w || (p l).isNone) := by
  cases hp : p l <;> simp [readCatch, parsedOr, hp]

theorem pure_ok {a : α} {xs : List String} {w : Bool} {r : α × List String × Bool}
    (h : M.pure a xs w = .ok r) : r = (a, xs, w) := by
  simp only [M.pure, Except.ok.injEq] at h
  exact h.symm

theorem bind_ok {m : M α} {f : α → M β} {xs : List String} {w : Bool}
    {r : β × List String × Bool} (h : M.bind m f xs w = .ok r) :
    ∃ a rem1 w1, m xs w = .ok (a, rem1, w1) ∧ f a rem1 w1 = .ok r := by
  simp only [M.bind] at h
  cases h1 : m xs w with
  | error e =>
    rw [h1] at h
    all_goals exact absurd h (by simp)
  | ok v =>
    obtain ⟨a, rem1, w1⟩ := v
    rw [h1] at h
    exact ⟨a, rem1, w1, rfl, h⟩

theorem nextLine_ok {fn name : String} {xs : List String} {w : Bool}
    {a : String} {rem : List String} {w' : Bool}
    (h : nextLine fn name xs w = .ok (a, rem, w')) :
    xs = a :: rem ∧ w' = w := by
  cases xs with
  | nil => simp only [nextLine] at h; exact Except.noConfusion h
  | cons l ls =>
    simp only [nextLine, Except.ok.injEq, Prod.mk.injEq] at h
    obtain ⟨rfl, rfl, rfl⟩ := h
    exact ⟨rfl, rfl⟩

theorem readCatch_ok {fn name : String} {p : String → Option α} {d : α}
    {xs : List String} {w : Bool} {v : α} {rem : List String} {w' : Bool}
    (h : readCatch fn name p d xs w = .ok (v, rem, w')) :
    ∃ l, xs = l :: rem ∧ v = parsedOr p d l ∧ w' = (w || (p l).isNone) := by
  cases xs with
  | nil => simp only [readCatch] at h; exact Except.noConfusion h
  | cons l ls =>
    rw [readCatch_cons] at h
    simp only [Except.ok.injEq, Prod.mk.injEq] at h
    obtain ⟨rfl, rfl, rfl⟩ := h
    exact ⟨l, rfl, rfl, rfl⟩

theorem readBlock_append (fn name : String) (p : String → Option α) (d : α) :
    ∀ (B rest : List String) (w : Bool),
      readBlock fn name p d B.length (B ++ rest) w =
        .ok (B.map (parsedOr p d), rest, w || anyFail p B) := by
  intro B
  induction B with
  | nil => intro rest w; simp [readBlock, M.pure, anyFail]
  | cons l B ih =>
    intro rest w
    simp only [List.length_cons, readBlock, List.cons_append, M.bind, readCatch_cons]
    rw [ih rest (w || (p l).isNone)]
    simp [M.pure, anyFail, Bool.or_assoc]

theorem readStrBlock_append (fn name : String) :
    ∀ (B rest : List String) (w : Bool),
      readStrBlock fn name B.length (B ++ rest) w = .ok (B, rest, w) := by
  intro B
  induction B with
  | nil => intro rest w; simp [readStrBlock, M.pure]
  | cons l B ih =>
    intro rest w
    simp only [List.length_cons, readStrBlock, List.cons_append, M.bind, nextLine_cons]
    rw [ih rest w]
    simp [M.pure]

theorem readBlock_ok {fn name : String} {p : String → Option α} {d : α} :
    ∀ {k : Nat} {xs : List String} {w : Bool} {vs : List α} {rem : List String} {w' : Bool},
      readBlock fn name p d k xs w = .ok (vs, rem, w') →
      ∃ B, xs = B ++ rem ∧ B.length = k ∧ vs = B.map (parsedOr p d) ∧
        w' = (w || anyFail p B) := by
  intro k
  induction k with
  | zero =>
    intro xs w vs rem w' h
    have := pure_ok h
    simp only [Prod.mk.injEq] at this
    obtain ⟨rfl, rfl, rfl⟩ := this
    exact ⟨[], by simp, rfl, rfl, by simp [anyFail]⟩
  | succ k ih =>
    intro xs w vs rem w' h
    simp only [readBlock] at h
    obtain ⟨v, rem1, w1, h1, h2⟩ := bind_ok h
    obtain ⟨vs1, rem2, w2, h3, h4⟩ := bind_ok h2
    have h5 := pure_ok h4
    simp only [Prod.mk.injEq] at h5
    obtain ⟨rfl, rfl, rfl⟩ := h5
    obtain ⟨l, rfl, rfl, rfl⟩ := readCatch_ok h1
    obtain ⟨B, rfl, hlen, rfl, rfl⟩ := ih h3
    refine ⟨l :: B, rfl, by simp [hlen], rfl, ?_⟩
    simp [anyFail, Bool.or_assoc]

theorem readStrBlock_ok {fn name : String} :
    ∀ {k : Nat} {xs : List String} {w : Bool} {vs rem : List String} {w' : Bool},
      readStrBlock fn name k xs w = .ok (vs, rem, w') →
      xs = vs ++ rem ∧ vs.length = k ∧ w' = w := by
  intro k
  induction k with
  | zero =>
    intro xs w vs rem w' h
    have := pure_ok h
    simp only [Prod.mk.injEq] at this
    obtain ⟨rfl, rfl, rfl⟩ := this
    exact ⟨by simp, rfl, rfl⟩
  | succ k ih =>
    intro xs w vs rem w' h
    simp only [readStrBlock] at h
    obtain ⟨v, rem1, w1, h1, h2⟩ := bind_ok h
    obtain ⟨vs1, rem2, w2, h3, h4⟩ := bind_ok h2
    have h5 := pure_ok h4
    simp only [Prod.mk.injEq] at h5
    obtain ⟨rfl, rfl, rfl⟩ := h5
    obtain ⟨rfl, rfl⟩ := nextLine_ok h1
    obtain ⟨rfl, hlen, rfl⟩ := ih h3
    exact ⟨rfl, by simp [hlen], rfl⟩

theorem zipLamps_length :
    ∀ (as : List Int) (bs : List String) (cs ds es : List Nat) (fs : List FPN),
      bs.length = as.length → cs.length = as.length → ds.length = as.length →
      es.length = as.length → fs.length = as.length →
      (zipLamps as bs cs ds es fs).length = as.length := by
  intro as
  induction as with
  | nil => intro bs cs ds es fs _ _ _ _ _; simp [zipLamps]
  | cons a as ih =>
    intro bs cs ds es fs hb hc hd he hf
    cases bs with | nil => simp at hb | cons b bs =>
    cases cs with | nil => simp at hc | cons c cs =>
    cases ds with | nil => simp at hd | cons d ds =>
    cases es with | nil => simp at he | cons e es =>
    cases fs with | nil => simp at hf | cons f fs =>
    simp only [List.length_cons] at hb hc hd he hf ⊢
    rw [zipLamps]
    simp only [List.length_cons]
    rw [ih bs cs ds es fs (by omega) (by omega) (by omega) (by omega) (by omega)]

theorem u32OfInt_lt (i : Int) : u32OfInt i < U32 := by
  have h1 : (0 : Int) < (U32 : Int) := by norm_num [U32]
  have h2 := Int.emod_lt_of_pos i h1
  have h3 := Int.emod_nonneg i (by norm_num [U32] : (U32 : Int) ≠ 0)
  simp only [u32OfInt]
  omega

theorem parsedOr_pu32_lt (s : String) : parsedOr pu32 0 s < U32 := by
  simp only [parsedOr, pu32]
  cases h : stoi? s with
  | none => simp [U32]
  | some i => simpa using u32OfInt_lt i

/-- After a successful `calc_mc1_mc2` with a representable `mc`, both
outputs are representable and either `mc1 ≤ mc2` or (only for code 0 with
`mc = 0`) `mc1 = mc2 + 1`. -/
theorem calc_ok_bounds {lsym mc mc1 mc2 : Nat} (hmc : mc < U32)
    (h : calc_mc1_mc2 lsym mc = some (mc1, mc2)) :
    mc1 < U32 ∧ mc2 < U32 ∧ (mc1 ≤ mc2 ∨ mc1 = mc2 + 1) := by
  match lsym with
  | 0 =>
    simp only [calc_mc1_mc2, Option.some.injEq, Prod.mk.injEq] at h
    obtain ⟨rfl, rfl⟩ := h
    simp only [U32] at hmc ⊢
    omega
  | 1 =>
    simp only [calc_mc1_mc2, Option.some.injEq, Prod.mk.injEq] at h
    obtain ⟨rfl, rfl⟩ := h
    simp only [U32]
    omega
  | 2 =>
    simp only [calc_mc1_mc2, Option.some.injEq, Prod.mk.injEq] at h
    obtain ⟨rfl, rfl⟩ := h
    simp only [U32] at hmc ⊢
    omega
  | 3 =>
    simp only [calc_mc1_mc2, Option.some.injEq, Prod.mk.injEq] at h
    obtain ⟨rfl, rfl⟩ := h
    have h3 : 3 * mc % U32 < U32 := Nat.mod_lt _ (by norm_num [U32])
    have hlt : 3 * mc % U32 / 4 + 1 + mc / 2 < U32 := by
      simp only [U32] at h3 hmc ⊢
      omega
    rw [Nat.mod_eq_of_lt hlt]
    simp only [U32] at hlt ⊢
    omega
  | 4 =>
    simp only [calc_mc1_mc2, Option.some.injEq, Prod.mk.injEq] at h
    obtain ⟨rfl, rfl⟩ := h
    simp only [U32] at hmc ⊢
    omega
  | (n + 5) =>
    simp only [calc_mc1_mc2] at h
    exact Option.noConfusion h

/-- In `size_t` arithmetic the resize length equals the signed value
`(mc2 - mc1 + 1) * ng` whenever `mc1 ≤ mc2` or `mc1 = mc2 + 1` (the only
shapes `calc_mc1_mc2` produces). -/
theorem lidLen_int {mc1 mc2 ng : Nat} (h1 : mc1 < U32) (h2 : mc2 < U32) (hng : ng < U32)
    (h : mc1 ≤ mc2 ∨ mc1 = mc2 + 1) :
    (lidLen mc1 mc2 ng : Int) = ((mc2 : Int) - mc1 + 1) * ng := by
  rcases h with h | h
  · have hd : (U64 + mc2 - mc1) % U64 = mc2 - mc1 := by
      have : U64 + mc2 - mc1 = U64 + (mc2 - mc1) := by omega
      rw [this, Nat.add_mod_left]
      exact Nat.mod_eq_of_lt (by simp only [U64, U32] at h2 ⊢; omega)
    have hd2 : (mc2 - mc1 + 1) % U64 = mc2 - mc1 + 1 :=
      Nat.mod_eq_of_lt (by simp only [U64, U32] at h2 ⊢; omega)
    have hd3 : (mc2 - mc1 + 1) * ng % U64 = (mc2 - mc1 + 1) * ng := by
      refine Nat.mod_eq_of_lt ?_
      have hle : (mc2 - mc1 + 1) * ng ≤ U32 * (U32 - 1) := by
        refine Nat.mul_le_mul ?_ ?_ <;> omega
      simp only [U64, U32] at hle ⊢
      omega
    simp only [lidLen, hd, hd2, hd3]
    push_cast [h]
    all_goals ring
  · subst h
    have hd : (U64 + mc2 - (mc2 + 1)) % U64 = U64 - 1 := by
      have : U64 + mc2 - (mc2 + 1) = U64 - 1 := by omega
      rw [this]
      exact Nat.mod_eq_of_lt (by simp [U64])
    have hd2 : (U64 - 1 + 1) % U64 = 0 := by
      have : U64 - 1 + 1 = U64 := by simp [U64]
      rw [this, Nat.mod_self]
    simp only [lidLen, hd, hd2, Nat.zero_mul, Nat.zero_mod]
    push_cast
    ring

/-! ## Decomposition of a successful decode -/

/-- Inversion of a successful `loadRest` run: the consumed lines are the 22
remaining header lines followed by the six lamp blocks, the 10 direct-ratio
lines, the C-angles, the G-angles and the intensity block, the record is
built from their parses, and the warn flag records every failed numeric
conversion in read order. -/
theorem loadRest_ok {fn manufacturer : String} {ltyp lsym mc mc1 mc2 : Nat}
    {xs : List String} {w : Bool} {r : light} {rem : List String} {w' : Bool}
    (h : loadRest fn manufacturer ltyp lsym mc mc1 mc2 xs w = .ok (r, rem, w')) :
    ∃ (l5 l6 l7 l8 l9 l10 l11 l12 l13 l14 l15 l16 l17 l18 l19 l20 l21 l22 l23
        l24 l25 l26 : String) (B1 B2 B3 B4 B5 B6 DR AC AG LID : List String),
      xs = l5 :: l6 :: l7 :: l8 :: l9 :: l10 :: l11 :: l12 :: l13 :: l14 ::
        l15 :: l16 :: l17 :: l18 :: l19 :: l20 :: l21 :: l22 :: l23 :: l24 ::
        l25 :: l26 ::
        (B1 ++ (B2 ++ (B3 ++ (B4 ++ (B5 ++ (B6 ++ (DR ++ (AC ++ (AG ++ (LID ++ rem)))))))))) ∧
      B1.length = parsedOr pu32 0 l26 ∧ B2.length = parsedOr pu32 0 l26 ∧
      B3.length = parsedOr pu32 0 l26 ∧ B4.length = parsedOr pu32 0 l26 ∧
      B5.length = parsedOr pu32 0 l26 ∧ B6.length = parsedOr pu32 0 l26 ∧
      DR.length = 10 ∧ AC.length = mc ∧ AG.length = parsedOr pu32 0 l6 ∧
      LID.length = lidLen mc1 mc2 (parsedOr pu32 0 l6) ∧
      r = { manufacturer := manufacturer, ltyp := ltyp, lsym := lsym, mc := mc,
            mc1 := mc1, mc2 := mc2, dc := parsedOr stof? 0 l5,
            ng := parsedOr pu32 0 l6, dg := parsedOr stof? 0 l7,
            measurement_report_number := l8, luminaire_name := l9,
            luminaire_number := l10, file_name := l11, date_user := l12,
            height_luminaire := parsedOr pu32 0 l15,
            length_luminaire := parsedOr pu32 0 l13,
            width_luminaire := parsedOr pu32 0 l14,
            length_luminous_area := parsedOr pu32 0 l16,
            width_luminous_area := parsedOr pu32 0 l17,
            height_luminous_area_c0 := parsedOr pu32 0 l18,
            height_luminous_area_c90 := parsedOr pu32 0 l19,
            height_luminous_area_c180 := parsedOr pu32 0 l20,
            height_luminous_area_c270 := parsedOr pu32 0 l21,
            dff := parsedOr stof? 0 l22, lorl := parsedOr stof? 0 l23,
            conversion_factor := parsedOr stof? 0 l24,
            tilt_of_luminaire := parsedOr pu32 0 l25, n := parsedOr pu32 0 l26,
            lamp_data := zipLamps (B1.map (parsedOr stoi? 0)) B2
              (B3.map (parsedOr pu32 0)) (B4.map (parsedOr pu32 0))
              (B5.map (parsedOr pu32 0)) (B6.map (parsedOr stof? 0)),
            dr := DR.map (parsedOr stof? 0), angles_c := AC.map (parsedOr stof? 0),
            angles_g := AG.map (parsedOr stof? 0),
            luminous_intensity_distribution := LID.map (parsedOr stof? 0) } ∧
      w' = (w || (stof? l5).isNone || (pu32 l6).isNone || (stof? l7).isNone
              || (pu32 l13).isNone || (pu32 l14).isNone || (pu32 l15).isNone
              || (pu32 l16).isNone || (pu32 l17).isNone || (pu32 l18).isNone
              || (pu32 l19).isNone || (pu32 l20).isNone || (pu32 l21).isNone
              || (stof? l22).isNone || (stof? l23).isNone || (stof? l24).isNone
              || (pu32 l25).isNone || (pu32 l26).isNone
              || anyFail stoi? B1 || anyFail pu32 B3 || anyFail pu32 B4
              || anyFail pu32 B5 || anyFail stof? B6 || anyFail stof? DR
              || anyFail stof? AC || anyFail stof? AG || anyFail stof? LID) := by
  unfold loadRest at h
  simp only [bind_is, pure_is] at h
  obtain ⟨dc, xs1, w1, s1, k1⟩ := bind_ok h
  clear h
  obtain ⟨l5, rfl, rfl, rfl⟩ := readCatch_ok s1
  obtain ⟨ng, xs2, w2, s2, k2⟩ := bind_ok k1
  clear k1
  obtain ⟨l6, rfl, rfl, rfl⟩ := readCatch_ok s2
  obtain ⟨dg, xs3, w3, s3, k3⟩ := bind_ok k2
  clear k2
  obtain ⟨l7, rfl, rfl, rfl⟩ := readCatch_ok s3
  obtain ⟨mrn, xs4, w4, s4, k4⟩ := bind_ok k3
  clear k3
  obtain ⟨rfl, rfl⟩ := nextLine_ok s4
  obtain ⟨lname, xs5, w5, s5, k5⟩ := bind_ok k4
  clear k4
  obtain ⟨rfl, rfl⟩ := nextLine_ok s5
  obtain ⟨lnum, xs6, w6, s6, k6⟩ := bind_ok k5
  clear k5
  obtain ⟨rfl, rfl⟩ := nextLine_ok s6
  obtain ⟨fname, xs7, w7, s7, k7⟩ := bind_ok k6
  clear k6
  obtain ⟨rfl, rfl⟩ := nextLine_ok s7
  obtain ⟨duser, xs8, w8, s8, k8⟩ := bind_ok k7
  clear k7
  obtain ⟨rfl, rfl⟩ := nextLine_ok s8
  obtain ⟨lengthLum, xs9, w9, s9, k9⟩ := bind_ok k8
  clear k8
  obtain ⟨l13, rfl, rfl, rfl⟩ := readCatch_ok s9
  obtain ⟨widthLum, xs10, w10, s10, k10⟩ := bind_ok k9
  clear k9
  obtain ⟨l14, rfl, rfl, rfl⟩ := readCatch_ok s10
  obtain ⟨heightLum, xs11, w11, s11, k11⟩ := bind_ok k10
  clear k10
  obtain ⟨l15, rfl, rfl, rfl⟩ := readCatch_ok s11
  obtain ⟨lengthArea, xs12, w12, s12, k12⟩ := bind_ok k11
  clear k11
  obtain ⟨l16, rfl, rfl, rfl⟩ := readCatch_ok s12
  obtain ⟨widthArea, xs13, w13, s13, k13⟩ := bind_ok k12
  clear k12
  obtain ⟨l17, rfl, rfl, rfl⟩ := readCatch_ok s13
  obtain ⟨hc0, xs14, w14, s14, k14⟩ := bind_ok k13
  clear k13
  obtain ⟨l18, rfl, rfl, rfl⟩ := readCatch_ok s14
  obtain ⟨hc90, xs15, w15, s15, k15⟩ := bind_ok k14
  clear k14
  obtain ⟨l19, rfl, rfl, rfl⟩ := readCatch_ok s15
  obtain ⟨hc180, xs16, w16, s16, k16⟩ := bind_ok k15
  clear k15
  obtain ⟨l20, rfl, rfl, rfl⟩ := readCatch_ok s16
  obtain ⟨hc270, xs17, w17, s17, k17⟩ := bind_ok k16
  clear k16
  obtain ⟨l21, rfl, rfl, rfl⟩ := readCatch_ok s17
  obtain ⟨dff, xs18, w18, s18, k18⟩ := bind_ok k17
  clear k17
  obtain ⟨l22, rfl, rfl, rfl⟩ := readCatch_ok s18
  obtain ⟨lorl, xs19, w19, s19, k19⟩ := bind_ok k18
  clear k18
  obtain ⟨l23, rfl, rfl, rfl⟩ := readCatch_ok s19
  obtain ⟨conv, xs20, w20, s20, k20⟩ := bind_ok k19
  clear k19
  obtain ⟨l24, rfl, rfl, rfl⟩ := readCatch_ok s20
  obtain ⟨tilt, xs21, w21, s21, k21⟩ := bind_ok k20
  clear k20
  obtain ⟨l25, rfl, rfl, rfl⟩ := readCatch_ok s21
  obtain ⟨n, xs22, w22, s22, k22⟩ := bind_ok k21
  clear k21
  obtain ⟨l26, rfl, rfl, rfl⟩ := readCatch_ok s22
  obtain ⟨nums, xs23, w23, s23, k23⟩ := bind_ok k22
  clear k22
  obtain ⟨B1, rfl, hlen1, rfl, rfl⟩ := readBlock_ok s23
  obtain ⟨types, xs24, w24, s24, k24⟩ := bind_ok k23
  clear k23
  obtain ⟨rfl, hlen2, rfl⟩ := readStrBlock_ok s24
  obtain ⟨fluxes, xs25, w25, s25, k25⟩ := bind_ok k24
  clear k24
  obtain ⟨B3, rfl, hlen3, rfl, rfl⟩ := readBlock_ok s25
  obtain ⟨cts, xs26, w26, s26, k26⟩ := bind_ok k25
  clear k25
  obtain ⟨B4, rfl, hlen4, rfl, rfl⟩ := readBlock_ok s26
  obtain ⟨crgs, xs27, w27, s27, k27⟩ := bind_ok k26
  clear k26
  obtain ⟨B5, rfl, hlen5, rfl, rfl⟩ := readBlock_ok s27
  obtain ⟨watts, xs28, w28, s28, k28⟩ := bind_ok k27
  clear k27
  obtain ⟨B6, rfl, hlen6, rfl, rfl⟩ := readBlock_ok s28
  obtain ⟨drs, xs29, w29, s29, k29⟩ := bind_ok k28
  clear k28
  obtain ⟨DR, rfl, hlen7, rfl, rfl⟩ := readBlock_ok s29
  obtain ⟨acs, xs30, w30, s30, k30⟩ := bind_ok k29
  clear k29
  obtain ⟨AC, rfl, hlen8, rfl, rfl⟩ := readBlock_ok s30
  obtain ⟨ags, xs31, w31, s31, k31⟩ := bind_ok k30
  clear k30
  obtain ⟨AG, rfl, hlen9, rfl, rfl⟩ := readBlock_ok s31
  obtain ⟨lid, xs32, w32, s32, k32⟩ := bind_ok k31
  clear k31
  obtain ⟨LID, rfl, hlen10, rfl, rfl⟩ := readBlock_ok s32
  have hfin := pure_ok k32
  simp only [Prod.mk.injEq] at hfin
  obtain ⟨rfl, rfl, rfl⟩ := hfin
  exact ⟨l5, l6, l7, mrn, lname, lnum, fname, duser, l13, l14, l15, l16, l17,
    l18, l19, l20, l21, l22, l23, l24, l25, l26, B1, types, B3, B4, B5, B6,
    DR, AC, AG, LID, rfl, hlen1, hlen2, hlen3, hlen4, hlen5, hlen6, hlen7, hlen8, hlen9, hlen10, rfl, rfl⟩

/-- Inversion of a successful `load_run`: the first four lines are read, the
resolver succeeds on the parsed symmetry code and plane count, and `loadRest`
runs on the remainder. -/
theorem load_run_ok {fn : String} {xs : List String} {w : Bool} {r : light}
    {rem : List String} {w' : Bool}
    (h : load_run fn xs w = .ok (r, rem, w')) :
    ∃ (l1 l2 l3 l4 : String) (xs4 : List String) (mc1 mc2 : Nat),
      xs = l1 :: l2 :: l3 :: l4 :: xs4 ∧
      calc_mc1_mc2 (parsedOr pu32 0 l3) (parsedOr pu32 0 l4) = some (mc1, mc2) ∧
      loadRest fn l1 (parsedOr pu32 0 l2) (parsedOr pu32 0 l3)
        (parsedOr pu32 0 l4) mc1 mc2 xs4
        (w || (pu32 l2).isNone || (pu32 l3).isNone || (pu32 l4).isNone)
        = .ok (r, rem, w') := by
  unfold load_run loadFromMc at h
  simp only [bind_is, pure_is] at h
  obtain ⟨l1, xs1, w1, s1, k1⟩ := bind_ok h
  clear h
  obtain ⟨rfl, rfl⟩ := nextLine_ok s1
  obtain ⟨ltyp, xs2, w2, s2, k2⟩ := bind_ok k1
  clear k1
  obtain ⟨l2, rfl, rfl, rfl⟩ := readCatch_ok s2
  obtain ⟨lsym, xs3, w3, s3, k3⟩ := bind_ok k2
  clear k2
  obtain ⟨l3, rfl, rfl, rfl⟩ := readCatch_ok s3
  obtain ⟨mc, xs4, w4, s4, k4⟩ := bind_ok k3
  clear k3
  obtain ⟨l4, rfl, rfl, rfl⟩ := readCatch_ok s4
  cases hc : calc_mc1_mc2 (parsedOr pu32 0 l3) (parsedOr pu32 0 l4) with
  | none =>
    rw [hc] at k4
    simp only [throwErr] at k4
    exact Except.noConfusion k4
  | some v =>
    obtain ⟨mc1, mc2⟩ := v
    rw [hc] at k4
    exact ⟨l1, l2, l3, l4, xs4, mc1, mc2, rfl, hc, k4⟩

/-! ## C4: array lengths after a successful decode -/

/-- The resolver fails exactly on the `default:` branch of `calc_mc1_mc2`, i.e. for every
code outside 0–4. -/
theorem calc_invalid (lsym mc : Nat) (h : 5 ≤ lsym) :
    calc_mc1_mc2 lsym mc = none := by
  match lsym with
  | 0 | 1 | 2 | 3 | 4 => omega
  | (n + 5) => rfl

/-- C4: after every successful `load_ldt` the variable-length arrays have
exactly the specified lengths (`lamp_data` has `n` entries, `angles_c` has
`mc`, `angles_g` has `ng`, and the intensity table has
`(mc2 − mc1 + 1) · ng`, stated over `ℤ` because at `mc = 0` under code 0 the
`size_t` computation yields `(0 − 1 + 1) · ng = 0`); in the concrete
scenario (`symmetry 0`, 24 planes, 19 samples, 1 lamp set) the intensity
array has 456 entries and the file of `26 + (6 + 10 + 24 + 19 + 456)` lines
is consumed exactly. -/
theorem C4_theorem (fn : String) (input : List String) (r : light) (w : Option String)
    (h : load_ldt fn input = .ok (r, w)) :
    (r.lamp_data.length = r.n ∧ r.angles_c.length = r.mc ∧
     r.angles_g.length = r.ng ∧
     (r.luminous_intensity_distribution.length : Int) =
       ((r.mc2 : Int) - r.mc1 + 1) * r.ng) ∧
    (F24.length = 26 + (6 * 1 + 10 + 24 + 19 + 456) ∧
     (load_ldt "f.ldt" F24).map (fun p =>
        (p.1.lamp_data.length, p.1.angles_c.length, p.1.angles_g.length,
         p.1.luminous_intensity_distribution.length)) = .ok (1, 24, 19, 456) ∧
     (load_run "f.ldt" F24 false).map (fun p => p.2.1) = .ok []) := by
  constructor
  · unfold load_ldt at h
    cases hr : load_run fn input false with
    | error e =>
      rw [hr] at h
      all_goals exact absurd h (by simp)
    | ok v =>
      obtain ⟨r0, rem0, w0⟩ := v
      rw [hr] at h
      simp only [Except.ok.injEq, Prod.mk.injEq] at h
      obtain ⟨rfl, rfl⟩ := h
      obtain ⟨l1, l2, l3, l4, xs4, mc1, mc2, rfl, hc, hrest⟩ := load_run_ok hr
      obtain ⟨l5, l6, l7, l8, l9, l10, l11, l12, l13, l14, l15, l16, l17, l18,
        l19, l20, l21, l22, l23, l24, l25, l26, B1, B2, B3, B4, B5, B6, DR, AC,
        AG, LID, hxs, hlen1, hlen2, hlen3, hlen4, hlen5, hlen6, hlen7, hlen8,
        hlen9, hlen10, hrec, hw⟩ := loadRest_ok hrest
      subst hrec
      refine ⟨?_, ?_, ?_, ?_⟩
      · simp only
        rw [zipLamps_length]
        · simp only [List.length_map, hlen1]
        · simp only [List.length_map, hlen1, hlen2]
        · simp only [List.length_map, hlen1, hlen3]
        · simp only [List.length_map, hlen1, hlen4]
        · simp only [List.length_map, hlen1, hlen5]
        · simp only [List.length_map, hlen1, hlen6]
      · simp only [List.length_map, hlen8]
      · simp only [List.length_map, hlen9]
      · simp only [List.length_map, hlen10]
        obtain ⟨hb1, hb2, hb3⟩ := calc_ok_bounds (parsedOr_pu32_lt l4) hc
        exact lidLen_int hb1 hb2 (parsedOr_pu32_lt l6) hb3
  · refine ⟨by decide, by decide, by decide⟩

/-- C4 (witness): the theorem applied to the minimal valid file. -/
theorem C4_witness : recMin.lamp_data.length = recMin.n :=
  ( C4_theorem "f.ldt" FMin recMin none (by decide)).1.1

/-! ## C5: invalid symmetry code is fatal and reads nothing further -/

/-- Shared helper: a symmetry line whose parsed `uint32_t` value lies
outside 0–4 makes `load_ldt` fail with the symmetry message right after the
plane-count line, whatever follows. -/
theorem loadLdt_symErr (fn l1 l2 l3 l4 : String) (rest : List String) (k : Int)
    (hk : stoi? l3 = some k) (hbad : 5 ≤ u32OfInt k) :
    load_ldt fn (l1 :: l2 :: l3 :: l4 :: rest) = .error symErrMsg := by
  have hsym : parsedOr pu32 0 l3 = u32OfInt k := by
    simp [parsedOr, pu32, hk]
  unfold load_ldt load_run loadFromMc
  simp only [bind_is, M.bind, nextLine_cons, readCatch_cons, hsym,
    calc_invalid _ _ hbad, throwErr]

/-- C5: if the symmetry line parses to an integer whose `uint32_t` value
lies outside 0–4, `load_ldt` fails right after the plane-count line with the
message naming the symmetry, for every continuation of the input (so no
line beyond the plane-count line is consumed and no array is sized). -/
theorem C5_theorem (fn l1 l2 l3 l4 : String) (rest : List String) (k : Int)
    (hk : stoi? l3 = some k) (hbad : 5 ≤ u32OfInt k) :
    load_ldt fn (l1 :: l2 :: l3 :: l4 :: rest) = .error symErrMsg :=
  loadLdt_symErr fn l1 l2 l3 l4 rest k hk hbad

/-- C5 (witness): symmetry code 5 aborts decoding. -/
theorem C5_witness :
    load_ldt "f.ldt" ["a", "0", "5", "24", "junk"] = .error symErrMsg :=
  C5_theorem "f.ldt" "a" "0" "5" "24" ["junk"] 5 (by decide) (by decide)

/-! ## Truncation-only error form for the post-resolver reads -/

theorem MTrunc_pure (fn : String) (a : α) : MTrunc fn (M.pure a) := by
  intro xs w e h
  simp only [M.pure] at h
  exact Except.noConfusion h

theorem MTrunc_bind {fn : String} {m : M α} {f : α → M β}
    (hm : MTrunc fn m) (hf : ∀ a, MTrunc fn (f a)) : MTrunc fn (M.bind m f) := by
  intro xs w e h
  simp only [M.bind] at h
  cases h1 : m xs w with
  | error e1 =>
    rw [h1] at h
    simp only [Except.error.injEq] at h
    exact h ▸ hm xs w e1 h1
  | ok v =>
    obtain ⟨a, rem1, w1⟩ := v
    rw [h1] at h
    exact hf a rem1 w1 e h

theorem MTrunc_nextLine (fn name : String) : MTrunc fn (nextLine fn name) := by
  intro xs w e h
  cases xs with
  | nil =>
    simp only [nextLine, Except.error.injEq] at h
    exact ⟨name, h.symm⟩
  | cons l ls =>
    simp only [nextLine] at h
    exact Except.noConfusion h

theorem MTrunc_readCatch (fn name : String) (p : String → Option α) (d : α) :
    MTrunc fn (readCatch fn name p d) := by
  intro xs w e h
  cases xs with
  | nil =>
    simp only [readCatch, Except.error.injEq] at h
    exact ⟨name, h.symm⟩
  | cons l ls =>
    cases hp : p l <;> simp only [readCatch, hp] at h <;> exact Except.noConfusion h

theorem MTrunc_readBlock (fn name : String) (p : String → Option α) (d : α) :
    ∀ k, MTrunc fn (readBlock fn name p d k) := by
  intro k
  induction k with
  | zero => exact MTrunc_pure fn []
  | succ k ih =>
    refine MTrunc_bind (MTrunc_readCatch fn name p d) fun v => ?_
    exact MTrunc_bind ih fun vs => MTrunc_pure fn (v :: vs)

theorem MTrunc_readStrBlock (fn name : String) :
    ∀ k, MTrunc fn (readStrBlock fn name k) := by
  intro k
  induction k with
  | zero => exact MTrunc_pure fn []
  | succ k ih =>
    refine MTrunc_bind (MTrunc_nextLine fn name) fun v => ?_
    exact MTrunc_bind ih fun vs => MTrunc_pure fn (v :: vs)

theorem MTrunc_loadRest (fn manufacturer : String) (ltyp lsym mc mc1 mc2 : Nat) :
    MTrunc fn (loadRest fn manufacturer ltyp lsym mc mc1 mc2) := by
  unfold loadRest
  simp only [bind_is, pure_is]
  repeat
    first
    | exact MTrunc_pure _ _
    | exact MTrunc_readCatch _ _ _ _
    | exact MTrunc_nextLine _ _
    | exact MTrunc_readBlock _ _ _ _ _
    | exact MTrunc_readStrBlock _ _ _
    | refine MTrunc_bind ?_ (fun x => ?_)

/-- The symmetry error message is not a truncation message (they differ at
character 14: `l` against `<`). -/
theorem symErr_ne_trunc (fn name : String) :
    ("Error reading <" ++ name ++ "> property: " ++ fn) ≠ symErrMsg := by
  intro h
  have h2 := congrArg (fun s => s.data[14]?) h
  simp only [String.data_append] at h2
  rw [List.getElem?_append_left (by simp)] at h2
  rw [List.getElem?_append_left (by simp)] at h2
  rw [List.getElem?_append_left (by decide)] at h2
  exact absurd h2 (by decide)

/-- The bounds `std::stoi` enforces on its result. -/
theorem stoi_range {s : String} {k : Int} (h : stoi? s = some k) :
    -2147483648 ≤ k ∧ k ≤ 2147483647 := by
  simp only [stoi?] at h
  split at h
  · exact Option.noConfusion h
  · split at h
    · simp only [Option.some.injEq] at h
      subst h
      assumption
    · exact Option.noConfusion h

/-- The resolver `calc_mc1_mc2` fails only for codes outside 0–4. -/
theorem calc_none_inv {lsym mc : Nat} (h : calc_mc1_mc2 lsym mc = none) :
    5 ≤ lsym := by
  match lsym with
  | 0 | 1 | 2 | 3 | 4 => simp [calc_mc1_mc2] at h
  | (n + 5) => omega

/-! ## C6: exhausted input is fatal and names the field -/

/-- C6: (1) every fatal error of `load_ldt` is a `NEXT_LINE` message naming
the field being read (or the separate invalid-symmetry message); (2) on any
strict prefix of the lines a successful decode consumed, `load_ldt` fails
with a `NEXT_LINE` message — never a partial success; (3) deleting the last
line of the minimal valid file yields the message naming the last expected
field, `Luminous intensity distribution`. -/
theorem C6_theorem (fn : String) :
    (∀ input e, load_ldt fn input = .error e → TruncErr fn e ∨ e = symErrMsg) ∧
    (∀ input r rem w, load_run fn input false = .ok (r, rem, w) →
      ∀ k, k < input.length - rem.length →
        ∃ e, load_ldt fn (input.take k) = .error e ∧ TruncErr fn e) ∧
    load_ldt "f.ldt" FMin.dropLast =
      .error "Error reading <Luminous intensity distribution> property: f.ldt" := by
  refine ⟨?_, ?_, by decide⟩
  · intro input e h
    unfold load_ldt at h
    cases hr : load_run fn input false with
    | error e0 =>
      rw [hr] at h
      simp only [Except.error.injEq] at h
      exact h ▸ (MLaw_load_run fn).err input false e0 hr
    | ok v =>
      obtain ⟨r0, rem0, w0⟩ := v
      rw [hr] at h
      all_goals exact absurd h (by simp)
  · intro input r rem w hr k hk
    obtain ⟨e, he, hte⟩ := (MLaw_load_run fn).short input false r rem w hr k hk
    refine ⟨e, ?_, hte⟩
    unfold load_ldt
    rw [he]

/-- C6 (witness): the theorem applied to a 20-line prefix of the minimal
valid file. -/
theorem C6_witness :
    ∃ e, load_ldt "f.ldt" (FMin.take 20) = .error e ∧ TruncErr "f.ldt" e :=
  ( C6_theorem "f.ldt").2.1 FMin recMin [] false (by decide) 20 (by decide)

/-! ## C10: plane count 0 under symmetry 0 -/

/-- C10: with symmetry code 0 and plane count 0 the resolver yields
`(mc1, mc2) = (1, 0)`; the `size_t` computation `(mc2 - mc1 + 1) * ng`
wraps to exactly 0 for every sample count, so the intensity array is sized 0,
no intensity line is consumed, and decoding still succeeds (checked on a
concrete file with two trailing junk lines left unread). -/
theorem C10_theorem :
    calc_mc1_mc2 0 0 = some (1, 0) ∧
    (∀ ng, lidLen 1 0 ng = 0) ∧
    (load_ldt "f.ldt" FZero).map (fun p =>
      (p.1.mc, p.1.mc1, p.1.mc2, p.1.luminous_intensity_distribution.length)) =
      .ok (0, 1, 0, 0) ∧
    (load_run "f.ldt" FZero false).map (fun p => p.2.1) = .ok ["junk1", "junk2"] := by
  refine ⟨rfl, ?_, by decide, by decide⟩
  intro ng
  have h1 : ((U64 + 0 - 1) % U64 + 1) % U64 = 0 := by norm_num [U64]
  rw [lidLen, h1, Nat.zero_mul, Nat.zero_mod]

/-! ## C9: unparseable symmetry line versus parsed out-of-range value -/

/-- Fatal errors pass through the `load_ldt` wrapper unchanged. -/
theorem load_ldt_error (fn : String) (xs : List String) (e : String) :
    load_ldt fn xs = .error e ↔ load_run fn xs false = .error e := by
  unfold load_ldt
  cases h : load_run fn xs false with
  | error e0 => simp
  | ok v =>
    obtain ⟨r, rem, w⟩ := v
    simp

/-- C9: (1) when the symmetry line does not parse, the code keeps the
default 0 (no symmetry) and decoding proceeds exactly as if the line read
`"0"`, with the aggregate warn flag set — in particular every array is sized
as for code 0; (2) the fatal symmetry error occurs precisely when the line
parses to an integer whose `uint32_t` value lies outside 0–4; (3) a parsed
negative value wraps to at least `2^31` and is therefore fatal. -/
theorem C9_theorem (fn l1 l2 l3 : String) :
    (stoi? l3 = none → ∀ rest,
      load_run fn (l1 :: l2 :: l3 :: rest) false =
        (match load_run fn (l1 :: l2 :: "0" :: rest) false with
         | .ok (r, rem, _) => .ok (r, rem, true)
         | .error e => .error e)) ∧
    (∀ l4 rest,
      load_ldt fn (l1 :: l2 :: l3 :: l4 :: rest) = .error symErrMsg ↔
        ∃ k, stoi? l3 = some k ∧ 5 ≤ u32OfInt k) ∧
    (∀ k : Int, stoi? l3 = some k → k < 0 → 5 ≤ u32OfInt k) := by
  refine ⟨?_, ?_, ?_⟩
  · intro h0 rest
    have hl3 : pu32 l3 = none := by simp [pu32, h0]
    have hps : parsedOr pu32 0 l3 = 0 := by simp [parsedOr, hl3]
    have hp0 : parsedOr pu32 0 "0" = 0 := by decide
    have hn0 : (pu32 "0").isNone = false := by decide
    simp only [load_run, bind_is, M.bind, nextLine_cons, readCatch_cons, hps,
      hp0, hl3, hn0, Option.isNone_none, Bool.or_true, Bool.or_false,
      Bool.false_or]
    have hw := (MLaw_loadFromMc fn l1 (parsedOr pu32 0 l2) 0).warn
    rw [hw rest true, hw rest (pu32 l2).isNone]
    cases hbase : loadFromMc fn l1 (parsedOr pu32 0 l2) 0 rest false with
    | error e => simp
    | ok v =>
      obtain ⟨r, rem, w0⟩ := v
      simp
  · intro l4 rest
    constructor
    · intro h
      rw [load_ldt_error] at h
      unfold load_run loadFromMc at h
      simp only [bind_is, M.bind, nextLine_cons, readCatch_cons] at h
      cases hc : calc_mc1_mc2 (parsedOr pu32 0 l3) (parsedOr pu32 0 l4) with
      | none =>
        have h5 := calc_none_inv hc
        cases hk : stoi? l3 with
        | none =>
          have hps : parsedOr pu32 0 l3 = 0 := by simp [parsedOr, pu32, hk]
          rw [hps] at h5
          omega
        | some k =>
          have hps : parsedOr pu32 0 l3 = u32OfInt k := by
            simp [parsedOr, pu32, hk]
          rw [hps] at h5
          exact ⟨k, rfl, h5⟩
      | some v =>
        obtain ⟨m1, m2⟩ := v
        rw [hc] at h
        have ht := MTrunc_loadRest fn l1 (parsedOr pu32 0 l2) (parsedOr pu32 0 l3)
          (parsedOr pu32 0 l4) m1 m2 _ _ _ h
        obtain ⟨name, hname⟩ := ht
        exact absurd hname.symm (symErr_ne_trunc fn name)
    · rintro ⟨k, hk, hbad⟩
      exact loadLdt_symErr fn l1 l2 l3 l4 rest k hk hbad
  · intro k hk hneg
    obtain ⟨hlo, hhi⟩ := stoi_range hk
    simp only [u32OfInt, U32]
    omega

/-- C9 (witness): a symmetry line `"-1"` parses, wraps to `4294967295`, and
is fatal. -/
theorem C9_witness :
    load_ldt "f.ldt" ["a", "0", "-1", "24", "x"] = .error symErrMsg :=
  (( C9_theorem "f.ldt" "a" "0" "-1").2.1 "24" ["x"]).mpr ⟨-1, by decide, by decide⟩

/-! ## C8: the writer emits the fixed field order, trusting stored lengths -/

/-- C8: for every record (however consistent) and every scalar formatter,
the emitted lines are exactly the 26 header fields in the §4.2 order, then
the six per-lamp blocks of `lamp_data.length` lines each, then the direct
ratios, the C-angles, the G-angles and the stored intensity values in
order; the total line count is the sum of the stored array lengths (so
zero-length arrays emit nothing), and the output never depends on `mc1`
and `mc2` — the writer does not re-derive lengths from the resolver. -/
theorem C8_theorem (ldt : light) (fmtF : FPN → String) (hdr : ldt.dr.length = 10) :
    (write_ldt ldt fmtF).length =
      26 + 6 * ldt.lamp_data.length + 10 + ldt.angles_c.length +
        ldt.angles_g.length + ldt.luminous_intensity_distribution.length ∧
    (write_ldt ldt fmtF).take 26 =
      [ldt.manufacturer, toString ldt.ltyp, toString ldt.lsym, toString ldt.mc,
       fmtF ldt.dc, toString ldt.ng, fmtF ldt.dg, ldt.measurement_report_number,
       ldt.luminaire_name, ldt.luminaire_number, ldt.file_name, ldt.date_user,
       toString ldt.length_luminaire, toString ldt.width_luminaire,
       toString ldt.height_luminaire, toString ldt.length_luminous_area,
       toString ldt.width_luminous_area, toString ldt.height_luminous_area_c0,
       toString ldt.height_luminous_area_c90,
       toString ldt.height_luminous_area_c180,
       toString ldt.height_luminous_area_c270, fmtF ldt.dff, fmtF ldt.lorl,
       fmtF ldt.conversion_factor, toString ldt.tilt_of_luminaire,
       toString ldt.n] ∧
    (write_ldt ldt fmtF).drop 26 =
      ldt.lamp_data.map (fun ld => toString ld.number_of_lamps)
      ++ ldt.lamp_data.map (fun ld => ld.type_of_lamps)
      ++ ldt.lamp_data.map (fun ld => toString ld.total_luminous_flux)
      ++ ldt.lamp_data.map (fun ld => toString ld.color_temperature)
      ++ ldt.lamp_data.map (fun ld => toString ld.color_rendering_group)
      ++ ldt.lamp_data.map (fun ld => fmtF ld.watt)
      ++ ldt.dr.map fmtF ++ ldt.angles_c.map fmtF ++ ldt.angles_g.map fmtF
      ++ ldt.luminous_intensity_distribution.map fmtF ∧
    (∀ x y, write_ldt { ldt with mc1 := x, mc2 := y } fmtF = write_ldt ldt fmtF) := by
  refine ⟨?_, ?_, ?_, fun x y => rfl⟩
  · simp only [write_ldt, List.length_append, List.length_map, List.length_cons,
      List.length_nil, hdr]
    ring
  · have : write_ldt ldt fmtF =
        [ldt.manufacturer, toString ldt.ltyp, toString ldt.lsym, toString ldt.mc,
         fmtF ldt.dc, toString ldt.ng, fmtF ldt.dg, ldt.measurement_report_number,
         ldt.luminaire_name, ldt.luminaire_number, ldt.file_name, ldt.date_user,
         toString ldt.length_luminaire, toString ldt.width_luminaire,
         toString ldt.height_luminaire, toString ldt.length_luminous_area,
         toString ldt.width_luminous_area, toString ldt.height_luminous_area_c0,
         toString ldt.height_luminous_area_c90,
         toString ldt.height_luminous_area_c180,
         toString ldt.height_luminous_area_c270, fmtF ldt.dff, fmtF ldt.lorl,
         fmtF ldt.conversion_factor, toString ldt.tilt_of_luminaire,
         toString ldt.n] ++
        (ldt.lamp_data.map (fun ld => toString ld.number_of_lamps)
         ++ ldt.lamp_data.map (fun ld => ld.type_of_lamps)
         ++ ldt.lamp_data.map (fun ld => toString ld.total_luminous_flux)
         ++ ldt.lamp_data.map (fun ld => toString ld.color_temperature)
         ++ ldt.lamp_data.map (fun ld => toString ld.color_rendering_group)
         ++ ldt.lamp_data.map (fun ld => fmtF ld.watt)
         ++ ldt.dr.map fmtF ++ ldt.angles_c.map fmtF ++ ldt.angles_g.map fmtF
         ++ ldt.luminous_intensity_distribution.map fmtF) := by
      simp [write_ldt]
    rw [this]
    exact List.take_left' (by simp)
  · have : write_ldt ldt fmtF =
        [ldt.manufacturer, toString ldt.ltyp, toString ldt.lsym, toString ldt.mc,
         fmtF ldt.dc, toString ldt.ng, fmtF ldt.dg, ldt.measurement_report_number,
         ldt.luminaire_name, ldt.luminaire_number, ldt.file_name, ldt.date_user,
         toString ldt.length_luminaire, toString ldt.width_luminaire,
         toString ldt.height_luminaire, toString ldt.length_luminous_area,
         toString ldt.width_luminous_area, toString ldt.height_luminous_area_c0,
         toString ldt.height_luminous_area_c90,
         toString ldt.height_luminous_area_c180,
         toString ldt.height_luminous_area_c270, fmtF ldt.dff, fmtF ldt.lorl,
         fmtF ldt.conversion_factor, toString ldt.tilt_of_luminaire,
         toString ldt.n] ++
        (ldt.lamp_data.map (fun ld => toString ld.number_of_lamps)
         ++ ldt.lamp_data.map (fun ld => ld.type_of_lamps)
         ++ ldt.lamp_data.map (fun ld => toString ld.total_luminous_flux)
         ++ ldt.lamp_data.map (fun ld => toString ld.color_temperature)
         ++ ldt.lamp_data.map (fun ld => toString ld.color_rendering_group)
         ++ ldt.lamp_data.map (fun ld => fmtF ld.watt)
         ++ ldt.dr.map fmtF ++ ldt.angles_c.map fmtF ++ ldt.angles_g.map fmtF
         ++ ldt.luminous_intensity_distribution.map fmtF) := by
      simp [write_ldt]
    rw [this]
    exact List.drop_left' (by simp)

/-- C8 (witness): the theorem applied to `recMin` with a concrete
formatter. -/
theorem C8_witness :
    (write_ldt recMin (fun v => toString v.num)).length =
      26 + 6 * recMin.lamp_data.length + 10 + recMin.angles_c.length +
        recMin.angles_g.length + recMin.luminous_intensity_distribution.length :=
  (C8_theorem recMin (fun v => toString v.num) (by decide)).1

/-! ## Forward evaluation of a decode on a decomposed input -/

theorem readBlock_eval {B : List String} {k : Nat} (hk : B.length = k)
    (fn name : String) (p : String → Option α) (d : α) (rest : List String)
    (w : Bool) :
    readBlock fn name p d k (B ++ rest) w =
      .ok (B.map (parsedOr p d), rest, w || anyFail p B) := by
  subst hk
  exact readBlock_append fn name p d B rest w

theorem readStrBlock_eval {B : List String} {k : Nat} (hk : B.length = k)
    (fn name : String) (rest : List String) (w : Bool) :
    readStrBlock fn name k (B ++ rest) w = .ok (B, rest, w) := by
  subst hk
  exact readStrBlock_append fn name B rest w

/-- Forward evaluation: `load_run` on an input decomposed into the 26 header
lines, the ten blocks (with the lengths the parsed counts dictate) and a
leftover produces exactly the record of the parses, leaves the leftover, and
ORs every failed numeric conversion into the warn flag. -/
theorem load_run_eval (fn : String) {l1 l2 l3 l4 l5 l6 l7 l8 l9 l10 l11 l12
    l13 l14 l15 l16 l17 l18 l19 l20 l21 l22 l23 l24 l25 l26 : String}
    {B1 B2 B3 B4 B5 B6 DR AC AG LID rest : List String} {mc1 mc2 : Nat}
    (hc : calc_mc1_mc2 (parsedOr pu32 0 l3) (parsedOr pu32 0 l4) = some (mc1, mc2))
    (h1 : B1.length = parsedOr pu32 0 l26) (h2 : B2.length = parsedOr pu32 0 l26)
    (h3 : B3.length = parsedOr pu32 0 l26) (h4 : B4.length = parsedOr pu32 0 l26)
    (h5 : B5.length = parsedOr pu32 0 l26) (h6 : B6.length = parsedOr pu32 0 l26)
    (h7 : DR.length = 10) (h8 : AC.length = parsedOr pu32 0 l4)
    (h9 : AG.length = parsedOr pu32 0 l6)
    (h10 : LID.length = lidLen mc1 mc2 (parsedOr pu32 0 l6)) (w : Bool) :
    load_run fn (l1 :: l2 :: l3 :: l4 :: l5 :: l6 :: l7 :: l8 :: l9 :: l10 ::
      l11 :: l12 :: l13 :: l14 :: l15 :: l16 :: l17 :: l18 :: l19 :: l20 ::
      l21 :: l22 :: l23 :: l24 :: l25 :: l26 ::
      (B1 ++ (B2 ++ (B3 ++ (B4 ++ (B5 ++ (B6 ++ (DR ++ (AC ++ (AG ++ (LID ++ rest))))))))))) w =
    .ok ({ manufacturer := l1, ltyp := parsedOr pu32 0 l2,
           lsym := parsedOr pu32 0 l3, mc := parsedOr pu32 0 l4,
           mc1 := mc1, mc2 := mc2, dc := parsedOr stof? 0 l5,
           ng := parsedOr pu32 0 l6, dg := parsedOr stof? 0 l7,
           measurement_report_number := l8, luminaire_name := l9,
           luminaire_number := l10, file_name := l11, date_user := l12,
           height_luminaire := parsedOr pu32 0 l15,
           length_luminaire := parsedOr pu32 0 l13,
           width_luminaire := parsedOr pu32 0 l14,
           length_luminous_area := parsedOr pu32 0 l16,
           width_luminous_area := parsedOr pu32 0 l17,
           height_luminous_area_c0 := parsedOr pu32 0 l18,
           height_luminous_area_c90 := parsedOr pu32 0 l19,
           height_luminous_area_c180 := parsedOr pu32 0 l20,
           height_luminous_area_c270 := parsedOr pu32 0 l21,
           dff := parsedOr stof? 0 l22, lorl := parsedOr stof? 0 l23,
           conversion_factor := parsedOr stof? 0 l24,
           tilt_of_luminaire := parsedOr pu32 0 l25, n := parsedOr pu32 0 l26,
           lamp_data := zipLamps (B1.map (parsedOr stoi? 0)) B2
             (B3.map (parsedOr pu32 0)) (B4.map (parsedOr pu32 0))
             (B5.map (parsedOr pu32 0)) (B6.map (parsedOr stof? 0)),
           dr := DR.map (parsedOr stof? 0), angles_c := AC.map (parsedOr stof? 0),
           angles_g := AG.map (parsedOr stof? 0),
           luminous_intensity_distribution := LID.map (parsedOr stof? 0) },
         rest,
         w || (pu32 l2).isNone || (pu32 l3).isNone || (pu32 l4).isNone
           || (stof? l5).isNone || (pu32 l6).isNone || (stof? l7).isNone
           || (pu32 l13).isNone || (pu32 l14).isNone || (pu32 l15).isNone
           || (pu32 l16).isNone || (pu32 l17).isNone || (pu32 l18).isNone
           || (pu32 l19).isNone || (pu32 l20).isNone || (pu32 l21).isNone
           || (stof? l22).isNone || (stof? l23).isNone || (stof? l24).isNone
           || (pu32 l25).isNone || (pu32 l26).isNone
           || anyFail stoi? B1 || anyFail pu32 B3 || anyFail pu32 B4
           || anyFail pu32 B5 || anyFail stof? B6 || anyFail stof? DR
           || anyFail stof? AC || anyFail stof? AG || anyFail stof? LID) := by
  simp only [load_run, loadFromMc, loadRest, bind_is, pure_is, M.bind, M.pure,
    nextLine_cons, readCatch_cons, hc, readBlock_eval h1, readStrBlock_eval h2,
    readBlock_eval h3, readBlock_eval h4, readBlock_eval h5, readBlock_eval h6,
    readBlock_eval h7, readBlock_eval h8, readBlock_eval h9, readBlock_eval h10]

/-- Setting a line beyond an initial segment of known length. -/
theorem set_skip {pre t : List α} {n : Nat} (h : pre.length = n) (m : Nat) (s : α) :
    (pre ++ t).set (n + m) s = pre ++ t.set m s := by
  rw [List.set_append, h, if_neg (by omega)]
  rw [show n + m - n = m from by omega]

/-- Setting a line inside an initial segment. -/
theorem set_here {pre t : List α} {i : Nat} (h : i < pre.length) (s : α) :
    (pre ++ t).set i s = pre.set i s ++ t := by
  rw [List.set_append, if_pos h]

/-- A block with an unconvertible line raises the warn flag. -/
theorem anyFail_set {p : String → Option α} {B : List String} {i : Nat}
    (hi : i < B.length) {s : String} (hs : (p s).isNone = true) :
    anyFail p (B.set i s) = true := by
  induction B generalizing i with
  | nil => simp at hi
  | cons b B ih =>
    cases i with
    | zero => simp [anyFail, hs]
    | succ i =>
      simp only [List.set_cons_succ, anyFail, List.any_cons, Bool.or_eq_true]
      right
      exact ih (by simpa using hi)

/-! ## Pointwise update of one lamp field through `zipLamps` -/

/-- Setting element `i` of the number_of_lamps input block updates only that field
of the `i`-th zipped lamp record. -/
theorem zipLamps_set1 :
    ∀ (as : List Int) (bs : List String) (cs ds es : List Nat) (fs : List FPN),
      bs.length = as.length → cs.length = as.length → ds.length = as.length →
      es.length = as.length → fs.length = as.length →
      ∀ (i : Nat), i < as.length → ∀ v : Int,
        ∃ e, (zipLamps as bs cs ds es fs)[i]? = some e ∧
          zipLamps (as.set i v) bs cs ds es fs =
            (zipLamps as bs cs ds es fs).set i { e with number_of_lamps := v } := by
  intro as
  induction as with
  | nil =>
    intro bs cs ds es fs _ _ _ _ _ i hi
    simp at hi
  | cons a as ih =>
    intro bs cs ds es fs hb hc hd he hf i hi v
    cases bs with | nil => simp at hb | cons b bs =>
    cases cs with | nil => simp at hc | cons c cs =>
    cases ds with | nil => simp at hd | cons d ds =>
    cases es with | nil => simp at he | cons e2 es =>
    cases fs with | nil => simp at hf | cons f fs =>
    cases i with
    | zero =>
      refine ⟨⟨a, b, c, d, e2, f⟩, by simp [zipLamps], ?_⟩
      simp [zipLamps]
    | succ i =>
      simp only [List.length_cons] at hb hc hd he hf hi
      obtain ⟨e0, hget, hset⟩ := ih bs cs ds es fs (by omega) (by omega)
        (by omega) (by omega) (by omega) i (by omega) v
      refine ⟨e0, by simp [zipLamps, hget], ?_⟩
      simp only [List.set_cons_succ, zipLamps, hset]

/-- Setting element `i` of the type_of_lamps input block updates only that field
of the `i`-th zipped lamp record. -/
theorem zipLamps_set2 :
    ∀ (as : List Int) (bs : List String) (cs ds es : List Nat) (fs : List FPN),
      bs.length = as.length → cs.length = as.length → ds.length = as.length →
      es.length = as.length → fs.length = as.length →
      ∀ (i : Nat), i < as.length → ∀ v : String,
        ∃ e, (zipLamps as bs cs ds es fs)[i]? = some e ∧
          zipLamps as (bs.set i v) cs ds es fs =
            (zipLamps as bs cs ds es fs).set i { e with type_of_lamps := v } := by
  intro as
  induction as with
  | nil =>
    intro bs cs ds es fs _ _ _ _ _ i hi
    simp at hi
  | cons a as ih =>
    intro bs cs ds es fs hb hc hd he hf i hi v
    cases bs with | nil => simp at hb | cons b bs =>
    cases cs with | nil => simp at hc | cons c cs =>
    cases ds with | nil => simp at hd | cons d ds =>
    cases es with | nil => simp at he | cons e2 es =>
    cases fs with | nil => simp at hf | cons f fs =>
    cases i with
    | zero =>
      refine ⟨⟨a, b, c, d, e2, f⟩, by simp [zipLamps], ?_⟩
      simp [zipLamps]
    | succ i =>
      simp only [List.length_cons] at hb hc hd he hf hi
      obtain ⟨e0, hget, hset⟩ := ih bs cs ds es fs (by omega) (by omega)
        (by omega) (by omega) (by omega) i (by omega) v
      refine ⟨e0, by simp [zipLamps, hget], ?_⟩
      simp only [List.set_cons_succ, zipLamps, hset]

/-- Setting element `i` of the total_luminous_flux input block updates only that field
of the `i`-th zipped lamp record. -/
theorem zipLamps_set3 :
    ∀ (as : List Int) (bs : List String) (cs ds es : List Nat) (fs : List FPN),
      bs.length = as.length → cs.length = as.length → ds.length = as.length →
      es.length = as.length → fs.length = as.length →
      ∀ (i : Nat), i < as.length → ∀ v : Nat,
        ∃ e, (zipLamps as bs cs ds es fs)[i]? = some e ∧
          zipLamps as bs (cs.set i v) ds es fs =
            (zipLamps as bs cs ds es fs).set i { e with total_luminous_flux := v } := by
  intro as
  induction as with
  | nil =>
    intro bs cs ds es fs _ _ _ _ _ i hi
    simp at hi
  | cons a as ih =>
    intro bs cs ds es fs hb hc hd he hf i hi v
    cases bs with | nil => simp at hb | cons b bs =>
    cases cs with | nil => simp at hc | cons c cs =>
    cases ds with | nil => simp at hd | cons d ds =>
    cases es with | nil => simp at he | cons e2 es =>
    cases fs with | nil => simp at hf | cons f fs =>
    cases i with
    | zero =>
      refine ⟨⟨a, b, c, d, e2, f⟩, by simp [zipLamps], ?_⟩
      simp [zipLamps]
    | succ i =>
      simp only [List.length_cons] at hb hc hd he hf hi
      obtain ⟨e0, hget, hset⟩ := ih bs cs ds es fs (by omega) (by omega)
        (by omega) (by omega) (by omega) i (by omega) v
      refine ⟨e0, by simp [zipLamps, hget], ?_⟩
      simp only [List.set_cons_succ, zipLamps, hset]

/-- Setting element `i` of the color_temperature input block updates only that field
of the `i`-th zipped lamp record. -/
theorem zipLamps_set4 :
    ∀ (as : List Int) (bs : List String) (cs ds es : List Nat) (fs : List FPN),
      bs.length = as.length → cs.length = as.length → ds.length = as.length →
      es.length = as.length → fs.length = as.length →
      ∀ (i : Nat), i < as.length → ∀ v : Nat,
        ∃ e, (zipLamps as bs cs ds es fs)[i]? = some e ∧
          zipLamps as bs cs (ds.set i v) es fs =
            (zipLamps as bs cs ds es fs).set i { e with color_temperature := v } := by
  intro as
  induction as with
  | nil =>
    intro bs cs ds es fs _ _ _ _ _ i hi
    simp at hi
  | cons a as ih =>
    intro bs cs ds es fs hb hc hd he hf i hi v
    cases bs with | nil => simp at hb | cons b bs =>
    cases cs with | nil => simp at hc | cons c cs =>
    cases ds with | nil => simp at hd | cons d ds =>
    cases es with | nil => simp at he | cons e2 es =>
    cases fs with | nil => simp at hf | cons f fs =>
    cases i with
    | zero =>
      refine ⟨⟨a, b, c, d, e2, f⟩, by simp [zipLamps], ?_⟩
      simp [zipLamps]
    | succ i =>
      simp only [List.length_cons] at hb hc hd he hf hi
      obtain ⟨e0, hget, hset⟩ := ih bs cs ds es fs (by omega) (by omega)
        (by omega) (by omega) (by omega) i (by omega) v
      refine ⟨e0, by simp [zipLamps, hget], ?_⟩
      simp only [List.set_cons_succ, zipLamps, hset]

/-- Setting element `i` of the color_rendering_group input block updates only that field
of the `i`-th zipped lamp record. -/
theorem zipLamps_set5 :
    ∀ (as : List Int) (bs : List String) (cs ds es : List Nat) (fs : List FPN),
      bs.length = as.length → cs.length = as.length → ds.length = as.length →
      es.length = as.length → fs.length = as.length →
      ∀ (i : Nat), i < as.length → ∀ v : Nat,
        ∃ e, (zipLamps as bs cs ds es fs)[i]? = some e ∧
          zipLamps as bs cs ds (es.set i v) fs =
            (zipLamps as bs cs ds es fs).set i { e with color_rendering_group := v } := by
  intro as
  induction as with
  | nil =>
    intro bs cs ds es fs _ _ _ _ _ i hi
    simp at hi
  | cons a as ih =>
    intro bs cs ds es fs hb hc hd he hf i hi v
    cases bs with | nil => simp at hb | cons b bs =>
    cases cs with | nil => simp at hc | cons c cs =>
    cases ds with | nil => simp at hd | cons d ds =>
    cases es with | nil => simp at he | cons e2 es =>
    cases fs with | nil => simp at hf | cons f fs =>
    cases i with
    | zero =>
      refine ⟨⟨a, b, c, d, e2, f⟩, by simp [zipLamps], ?_⟩
      simp [zipLamps]
    | succ i =>
      simp only [List.length_cons] at hb hc hd he hf hi
      obtain ⟨e0, hget, hset⟩ := ih bs cs ds es fs (by omega) (by omega)
        (by omega) (by omega) (by omega) i (by omega) v
      refine ⟨e0, by simp [zipLamps, hget], ?_⟩
      simp only [List.set_cons_succ, zipLamps, hset]

/-- Setting element `i` of the watt input block updates only that field
of the `i`-th zipped lamp record. -/
theorem zipLamps_set6 :
    ∀ (as : List Int) (bs : List String) (cs ds es : List Nat) (fs : List FPN),
      bs.length = as.length → cs.length = as.length → ds.length = as.length →
      es.length = as.length → fs.length = as.length →
      ∀ (i : Nat), i < as.length → ∀ v : FPN,
        ∃ e, (zipLamps as bs cs ds es fs)[i]? = some e ∧
          zipLamps as bs cs ds es (fs.set i v) =
            (zipLamps as bs cs ds es fs).set i { e with watt := v } := by
  intro as
  induction as with
  | nil =>
    intro bs cs ds es fs _ _ _ _ _ i hi
    simp at hi
  | cons a as ih =>
    intro bs cs ds es fs hb hc hd he hf i hi v
    cases bs with | nil => simp at hb | cons b bs =>
    cases cs with | nil => simp at hc | cons c cs =>
    cases ds with | nil => simp at hd | cons d ds =>
    cases es with | nil => simp at he | cons e2 es =>
    cases fs with | nil => simp at hf | cons f fs =>
    cases i with
    | zero =>
      refine ⟨⟨a, b, c, d, e2, f⟩, by simp [zipLamps], ?_⟩
      simp [zipLamps]
    | succ i =>
      simp only [List.length_cons] at hb hc hd he hf hi
      obtain ⟨e0, hget, hset⟩ := ih bs cs ds es fs (by omega) (by omega)
        (by omega) (by omega) (by omega) i (by omega) v
      refine ⟨e0, by simp [zipLamps, hget], ?_⟩
      simp only [List.set_cons_succ, zipLamps, hset]

/-! ## C7: one replaced line -/

/-- C7 (amended): for every file on which `load_ldt` succeeds, (1) the warn
output is a single aggregate message (`none` or the one constant string,
never one message per field); (2) replacing any numeric field line other
than the four structural lines (symmetry, `Mc`, `Ng`, lamp-set count) with
text that fails to convert to that field's type still decodes successfully,
with exactly that field at its zero default, every other field unchanged,
and the aggregate warning set; (3) replacing any string field line with
arbitrary text decodes successfully with exactly that string field changed
and the warning output unchanged — string lines never raise the warning. -/
theorem C7_theorem (fn : String) (input : List String) (r : light)
    (w : Option String) (h : load_ldt fn input = .ok (r, w)) :
    (w = none ∨ w = some warnMsg) ∧
    (∀ pos : NumPos, pos.valid r → ∀ s, pos.fails s = true →
      load_ldt fn (input.set (pos.idx r) s) = .ok (pos.zero r, some warnMsg)) ∧
    (∀ pos : StrPos, pos.valid r → ∀ s,
      load_ldt fn (input.set (pos.idx r) s) = .ok (pos.store r s, w)) := by
  unfold load_ldt at h
  cases hr : load_run fn input false with
  | error e =>
    rw [hr] at h
    all_goals exact absurd h (by simp)
  | ok v =>
    obtain ⟨r0, rem0, w0⟩ := v
    rw [hr] at h
    simp only [Except.ok.injEq, Prod.mk.injEq] at h
    obtain ⟨rfl, rfl⟩ := h
    obtain ⟨l1, l2, l3, l4, xs4, mc1, mc2, rfl, hc, hrest⟩ := load_run_ok hr
    obtain ⟨l5, l6, l7, l8, l9, l10, l11, l12, l13, l14, l15, l16, l17, l18,
      l19, l20, l21, l22, l23, l24, l25, l26, B1, B2, B3, B4, B5, B6, DR, AC,
      AG, LID, hxs, hlen1, hlen2, hlen3, hlen4, hlen5, hlen6, hlen7, hlen8,
      hlen9, hlen10, hrec, hw0⟩ := loadRest_ok hrest
    subst hrec
    subst hxs
    subst hw0
    refine ⟨?_, ?_, ?_⟩
    · split
      · exact Or.inr rfl
      · exact Or.inl rfl
    · intro pos hvalid s hfail
      cases pos with
      | ltyp =>
        have hs0 : stoi? s = none := Option.isNone_iff_eq_none.mp hfail
        have hp0 : pu32 s = none := by simp [pu32, hs0]
        show load_ldt fn (l1 :: s :: l3 :: l4 :: l5 :: l6 :: l7 :: l8 :: l9 :: l10 :: l11 :: l12 :: l13 :: l14 :: l15 :: l16 :: l17 :: l18 :: l19 :: l20 :: l21 :: l22 :: l23 :: l24 :: l25 :: l26 ::
      (B1 ++ (B2 ++ (B3 ++ (B4 ++ (B5 ++ (B6 ++ (DR ++ (AC ++ (AG ++ (LID ++ rem0))))))))))) = _
        unfold load_ldt
        rw [load_run_eval fn hc hlen1 hlen2 hlen3 hlen4 hlen5 hlen6 hlen7 hlen8 hlen9 hlen10 false]
        simp only [NumPos.zero, parsedOr, hp0, Option.getD_none,
          Option.isNone_none, Bool.or_true, Bool.true_or, if_true]
      | dc =>
        have hs0 : stof? s = none := Option.isNone_iff_eq_none.mp hfail
        show load_ldt fn (l1 :: l2 :: l3 :: l4 :: s :: l6 :: l7 :: l8 :: l9 :: l10 :: l11 :: l12 :: l13 :: l14 :: l15 :: l16 :: l17 :: l18 :: l19 :: l20 :: l21 :: l22 :: l23 :: l24 :: l25 :: l26 ::
      (B1 ++ (B2 ++ (B3 ++ (B4 ++ (B5 ++ (B6 ++ (DR ++ (AC ++ (AG ++ (LID ++ rem0))))))))))) = _
        unfold load_ldt
        rw [load_run_eval fn hc hlen1 hlen2 hlen3 hlen4 hlen5 hlen6 hlen7 hlen8 hlen9 hlen10 false]
        simp only [NumPos.zero, parsedOr, hs0, Option.getD_none,
          Option.isNone_none, Bool.or_true, Bool.true_or, if_true]
      | dg =>
        have hs0 : stof? s = none := Option.isNone_iff_eq_none.mp hfail
        show load_ldt fn (l1 :: l2 :: l3 :: l4 :: l5 :: l6 :: s :: l8 :: l9 :: l10 :: l11 :: l12 :: l13 :: l14 :: l15 :: l16 :: l17 :: l18 :: l19 :: l20 :: l21 :: l22 :: l23 :: l24 :: l25 :: l26 ::
      (B1 ++ (B2 ++ (B3 ++ (B4 ++ (B5 ++ (B6 ++ (DR ++ (AC ++ (AG ++ (LID ++ rem0))))))))))) = _
        unfold load_ldt
        rw [load_run_eval fn hc hlen1 hlen2 hlen3 hlen4 hlen5 hlen6 hlen7 hlen8 hlen9 hlen10 false]
        simp only [NumPos.zero, parsedOr, hs0, Option.getD_none,
          Option.isNone_none, Bool.or_true, Bool.true_or, if_true]
      | lengthLum =>
        have hs0 : stoi? s = none := Option.isNone_iff_eq_none.mp hfail
        have hp0 : pu32 s = none := by simp [pu32, hs0]
        show load_ldt fn (l1 :: l2 :: l3 :: l4 :: l5 :: l6 :: l7 :: l8 :: l9 :: l10 :: l11 :: l12 :: s :: l14 :: l15 :: l16 :: l17 :: l18 :: l19 :: l20 :: l21 :: l22 :: l23 :: l24 :: l25 :: l26 ::
      (B1 ++ (B2 ++ (B3 ++ (B4 ++ (B5 ++ (B6 ++ (DR ++ (AC ++ (AG ++ (LID ++ rem0))))))))))) = _
        unfold load_ldt
        rw [load_run_eval fn hc hlen1 hlen2 hlen3 hlen4 hlen5 hlen6 hlen7 hlen8 hlen9 hlen10 false]
        simp only [NumPos.zero, parsedOr, hp0, Option.getD_none,
          Option.isNone_none, Bool.or_true, Bool.true_or, if_true]
      | widthLum =>
        have hs0 : stoi? s = none := Option.isNone_iff_eq_none.mp hfail
        have hp0 : pu32 s = none := by simp [pu32, hs0]
        show load_ldt fn (l1 :: l2 :: l3 :: l4 :: l5 :: l6 :: l7 :: l8 :: l9 :: l10 :: l11 :: l12 :: l13 :: s :: l15 :: l16 :: l17 :: l18 :: l19 :: l20 :: l21 :: l22 :: l23 :: l24 :: l25 :: l26 ::
      (B1 ++ (B2 ++ (B3 ++ (B4 ++ (B5 ++ (B6 ++ (DR ++ (AC ++ (AG ++ (LID ++ rem0))))))))))) = _
        unfold load_ldt
        rw [load_run_eval fn hc hlen1 hlen2 hlen3 hlen4 hlen5 hlen6 hlen7 hlen8 hlen9 hlen10 false]
        simp only [NumPos.zero, parsedOr, hp0, Option.getD_none,
          Option.isNone_none, Bool.or_true, Bool.true_or, if_true]
      | heightLum =>
        have hs0 : stoi? s = none := Option.isNone_iff_eq_none.mp hfail
        have hp0 : pu32 s = none := by simp [pu32, hs0]
        show load_ldt fn (l1 :: l2 :: l3 :: l4 :: l5 :: l6 :: l7 :: l8 :: l9 :: l10 :: l11 :: l12 :: l13 :: l14 :: s :: l16 :: l17 :: l18 :: l19 :: l20 :: l21 :: l22 :: l23 :: l24 :: l25 :: l26 ::
      (B1 ++ (B2 ++ (B3 ++ (B4 ++ (B5 ++ (B6 ++ (DR ++ (AC ++ (AG ++ (LID ++ rem0))))))))))) = _
        unfold load_ldt
        rw [load_run_eval fn hc hlen1 hlen2 hlen3 hlen4 hlen5 hlen6 hlen7 hlen8 hlen9 hlen10 false]
        simp only [NumPos.zero, parsedOr, hp0, Option.getD_none,
          Option.isNone_none, Bool.or_true, Bool.true_or, if_true]
      | lengthArea =>
        have hs0 : stoi? s = none := Option.isNone_iff_eq_none.mp hfail
        have hp0 : pu32 s = none := by simp [pu32, hs0]
        show load_ldt fn (l1 :: l2 :: l3 :: l4 :: l5 :: l6 :: l7 :: l8 :: l9 :: l10 :: l11 :: l12 :: l13 :: l14 :: l15 :: s :: l17 :: l18 :: l19 :: l20 :: l21 :: l22 :: l23 :: l24 :: l25 :: l26 ::
      (B1 ++ (B2 ++ (B3 ++ (B4 ++ (B5 ++ (B6 ++ (DR ++ (AC ++ (AG ++ (LID ++ rem0))))))))))) = _
        unfold load_ldt
        rw [load_run_eval fn hc hlen1 hlen2 hlen3 hlen4 hlen5 hlen6 hlen7 hlen8 hlen9 hlen10 false]
        simp only [NumPos.zero, parsedOr, hp0, Option.getD_none,
          Option.isNone_none, Bool.or_true, Bool.true_or, if_true]
      | widthArea =>
        have hs0 : stoi? s = none := Option.isNone_iff_eq_none.mp hfail
        have hp0 : pu32 s = none := by simp [pu32, hs0]
        show load_ldt fn (l1 :: l2 :: l3 :: l4 :: l5 :: l6 :: l7 :: l8 :: l9 :: l10 :: l11 :: l12 :: l13 :: l14 :: l15 :: l16 :: s :: l18 :: l19 :: l20 :: l21 :: l22 :: l23 :: l24 :: l25 :: l26 ::
      (B1 ++ (B2 ++ (B3 ++ (B4 ++ (B5 ++ (B6 ++ (DR ++ (AC ++ (AG ++ (LID ++ rem0))))))))))) = _
        unfold load_ldt
        rw [load_run_eval fn hc hlen1 hlen2 hlen3 hlen4 hlen5 hlen6 hlen7 hlen8 hlen9 hlen10 false]
        simp only [NumPos.zero, parsedOr, hp0, Option.getD_none,
          Option.isNone_none, Bool.or_true, Bool.true_or, if_true]
      | hc0 =>
        have hs0 : stoi? s = none := Option.isNone_iff_eq_none.mp hfail
        have hp0 : pu32 s = none := by simp [pu32, hs0]
        show load_ldt fn (l1 :: l2 :: l3 :: l4 :: l5 :: l6 :: l7 :: l8 :: l9 :: l10 :: l11 :: l12 :: l13 :: l14 :: l15 :: l16 :: l17 :: s :: l19 :: l20 :: l21 :: l22 :: l23 :: l24 :: l25 :: l26 ::
      (B1 ++ (B2 ++ (B3 ++ (B4 ++ (B5 ++ (B6 ++ (DR ++ (AC ++ (AG ++ (LID ++ rem0))))))))))) = _
        unfold load_ldt
        rw [load_run_eval fn hc hlen1 hlen2 hlen3 hlen4 hlen5 hlen6 hlen7 hlen8 hlen9 hlen10 false]
        simp only [NumPos.zero, parsedOr, hp0, Option.getD_none,
          Option.isNone_none, Bool.or_true, Bool.true_or, if_true]
      | hc90 =>
        have hs0 : stoi? s = none := Option.isNone_iff_eq_none.mp hfail
        have hp0 : pu32 s = none := by simp [pu32, hs0]
        show load_ldt fn (l1 :: l2 :: l3 :: l4 :: l5 :: l6 :: l7 :: l8 :: l9 :: l10 :: l11 :: l12 :: l13 :: l14 :: l15 :: l16 :: l17 :: l18 :: s :: l20 :: l21 :: l22 :: l23 :: l24 :: l25 :: l26 ::
      (B1 ++ (B2 ++ (B3 ++ (B4 ++ (B5 ++ (B6 ++ (DR ++ (AC ++ (AG ++ (LID ++ rem0))))))))))) = _
        unfold load_ldt
        rw [load_run_eval fn hc hlen1 hlen2 hlen3 hlen4 hlen5 hlen6 hlen7 hlen8 hlen9 hlen10 false]
        simp only [NumPos.zero, parsedOr, hp0, Option.getD_none,
          Option.isNone_none, Bool.or_true, Bool.true_or, if_true]
      | hc180 =>
        have hs0 : stoi? s = none := Option.isNone_iff_eq_none.mp hfail
        have hp0 : pu32 s = none := by simp [pu32, hs0]
        show load_ldt fn (l1 :: l2 :: l3 :: l4 :: l5 :: l6 :: l7 :: l8 :: l9 :: l10 :: l11 :: l12 :: l13 :: l14 :: l15 :: l16 :: l17 :: l18 :: l19 :: s :: l21 :: l22 :: l23 :: l24 :: l25 :: l26 ::
      (B1 ++ (B2 ++ (B3 ++ (B4 ++ (B5 ++ (B6 ++ (DR ++ (AC ++ (AG ++ (LID ++ rem0))))))))))) = _
        unfold load_ldt
        rw [load_run_eval fn hc hlen1 hlen2 hlen3 hlen4 hlen5 hlen6 hlen7 hlen8 hlen9 hlen10 false]
        simp only [NumPos.zero, parsedOr, hp0, Option.getD_none,
          Option.isNone_none, Bool.or_true, Bool.true_or, if_true]
      | hc270 =>
        have hs0 : stoi? s = none := Option.isNone_iff_eq_none.mp hfail
        have hp0 : pu32 s = none := by simp [pu32, hs0]
        show load_ldt fn (l1 :: l2 :: l3 :: l4 :: l5 :: l6 :: l7 :: l8 :: l9 :: l10 :: l11 :: l12 :: l13 :: l14 :: l15 :: l16 :: l17 :: l18 :: l19 :: l20 :: s :: l22 :: l23 :: l24 :: l25 :: l26 ::
      (B1 ++ (B2 ++ (B3 ++ (B4 ++ (B5 ++ (B6 ++ (DR ++ (AC ++ (AG ++ (LID ++ rem0))))))))))) = _
        unfold load_ldt
        rw [load_run_eval fn hc hlen1 hlen2 hlen3 hlen4 hlen5 hlen6 hlen7 hlen8 hlen9 hlen10 false]
        simp only [NumPos.zero, parsedOr, hp0, Option.getD_none,
          Option.isNone_none, Bool.or_true, Bool.true_or, if_true]
      | dff =>
        have hs0 : stof? s = none := Option.isNone_iff_eq_none.mp hfail
        show load_ldt fn (l1 :: l2 :: l3 :: l4 :: l5 :: l6 :: l7 :: l8 :: l9 :: l10 :: l11 :: l12 :: l13 :: l14 :: l15 :: l16 :: l17 :: l18 :: l19 :: l20 :: l21 :: s :: l23 :: l24 :: l25 :: l26 ::
      (B1 ++ (B2 ++ (B3 ++ (B4 ++ (B5 ++ (B6 ++ (DR ++ (AC ++ (AG ++ (LID ++ rem0))))))))))) = _
        unfold load_ldt
        rw [load_run_eval fn hc hlen1 hlen2 hlen3 hlen4 hlen5 hlen6 hlen7 hlen8 hlen9 hlen10 false]
        simp only [NumPos.zero, parsedOr, hs0, Option.getD_none,
          Option.isNone_none, Bool.or_true, Bool.true_or, if_true]
      | lorl =>
        have hs0 : stof? s = none := Option.isNone_iff_eq_none.mp hfail
        show load_ldt fn (l1 :: l2 :: l3 :: l4 :: l5 :: l6 :: l7 :: l8 :: l9 :: l10 :: l11 :: l12 :: l13 :: l14 :: l15 :: l16 :: l17 :: l18 :: l19 :: l20 :: l21 :: l22 :: s :: l24 :: l25 :: l26 ::
      (B1 ++ (B2 ++ (B3 ++ (B4 ++ (B5 ++ (B6 ++ (DR ++ (AC ++ (AG ++ (LID ++ rem0))))))))))) = _
        unfold load_ldt
        rw [load_run_eval fn hc hlen1 hlen2 hlen3 hlen4 hlen5 hlen6 hlen7 hlen8 hlen9 hlen10 false]
        simp only [NumPos.zero, parsedOr, hs0, Option.getD_none,
          Option.isNone_none, Bool.or_true, Bool.true_or, if_true]
      | conv =>
        have hs0 : stof? s = none := Option.isNone_iff_eq_none.mp hfail
        show load_ldt fn (l1 :: l2 :: l3 :: l4 :: l5 :: l6 :: l7 :: l8 :: l9 :: l10 :: l11 :: l12 :: l13 :: l14 :: l15 :: l16 :: l17 :: l18 :: l19 :: l20 :: l21 :: l22 :: l23 :: s :: l25 :: l26 ::
      (B1 ++ (B2 ++ (B3 ++ (B4 ++ (B5 ++ (B6 ++ (DR ++ (AC ++ (AG ++ (LID ++ rem0))))))))))) = _
        unfold load_ldt
        rw [load_run_eval fn hc hlen1 hlen2 hlen3 hlen4 hlen5 hlen6 hlen7 hlen8 hlen9 hlen10 false]
        simp only [NumPos.zero, parsedOr, hs0, Option.getD_none,
          Option.isNone_none, Bool.or_true, Bool.true_or, if_true]
      | tilt =>
        have hs0 : stoi? s = none := Option.isNone_iff_eq_none.mp hfail
        have hp0 : pu32 s = none := by simp [pu32, hs0]
        show load_ldt fn (l1 :: l2 :: l3 :: l4 :: l5 :: l6 :: l7 :: l8 :: l9 :: l10 :: l11 :: l12 :: l13 :: l14 :: l15 :: l16 :: l17 :: l18 :: l19 :: l20 :: l21 :: l22 :: l23 :: l24 :: s :: l26 ::
      (B1 ++ (B2 ++ (B3 ++ (B4 ++ (B5 ++ (B6 ++ (DR ++ (AC ++ (AG ++ (LID ++ rem0))))))))))) = _
        unfold load_ldt
        rw [load_run_eval fn hc hlen1 hlen2 hlen3 hlen4 hlen5 hlen6 hlen7 hlen8 hlen9 hlen10 false]
        simp only [NumPos.zero, parsedOr, hp0, Option.getD_none,
          Option.isNone_none, Bool.or_true, Bool.true_or, if_true]
      | lampNum i =>
        have hs0 : stoi? s = none := Option.isNone_iff_eq_none.mp hfail
        have hvn : i < B1.length := by rw [hlen1]; exact hvalid
        show load_ldt fn (([l1, l2, l3, l4, l5, l6, l7, l8, l9, l10, l11, l12, l13, l14, l15, l16, l17, l18, l19, l20, l21, l22, l23, l24, l25, l26] ++
          (B1 ++ (B2 ++ (B3 ++ (B4 ++ (B5 ++ (B6 ++ (DR ++ (AC ++ (AG ++ (LID ++ rem0))))))))))).set
          (26 + i) s) = _
        rw [set_skip (show ([l1, l2, l3, l4, l5, l6, l7, l8, l9, l10, l11, l12, l13, l14, l15, l16, l17, l18, l19, l20, l21, l22, l23, l24, l25, l26] :
          List String).length = 26 from rfl)]
        rw [set_here hvn]
        have hlen1s : (B1.set i s).length = parsedOr pu32 0 l26 := by
          rw [List.length_set]; exact hlen1
        show load_ldt fn (l1 :: l2 :: l3 :: l4 :: l5 :: l6 :: l7 :: l8 :: l9 :: l10 :: l11 :: l12 :: l13 :: l14 :: l15 :: l16 :: l17 :: l18 :: l19 :: l20 :: l21 :: l22 :: l23 :: l24 :: l25 :: l26 ::
      ((B1.set i s) ++ (B2 ++ (B3 ++ (B4 ++ (B5 ++ (B6 ++ (DR ++ (AC ++ (AG ++ (LID ++ rem0))))))))))) = _
        unfold load_ldt
        rw [load_run_eval fn hc hlen1s hlen2 hlen3 hlen4 hlen5 hlen6 hlen7 hlen8 hlen9 hlen10 false]
        rw [List.map_set]
        rw [show parsedOr stoi? 0 s = (0 : Int) from by simp [parsedOr, hs0]]
        obtain ⟨e0, hget, hset⟩ := zipLamps_set1 (B1.map (parsedOr stoi? 0)) B2
          (B3.map (parsedOr pu32 0)) (B4.map (parsedOr pu32 0))
          (B5.map (parsedOr pu32 0)) (B6.map (parsedOr stof? 0))
          (by simp only [List.length_map]; rw [hlen1, hlen2])
          (by simp only [List.length_map]; rw [hlen1, hlen3])
          (by simp only [List.length_map]; rw [hlen1, hlen4])
          (by simp only [List.length_map]; rw [hlen1, hlen5])
          (by simp only [List.length_map]; rw [hlen1, hlen6])
          i (by simp only [List.length_map]; rw [hlen1]; exact hvalid) 0
        rw [hset]
        simp only [NumPos.zero, setLamp, hget, anyFail_set hvn hfail,
          Bool.or_true, Bool.true_or, if_true]
      | lampFlux i =>
        have hs0 : stoi? s = none := Option.isNone_iff_eq_none.mp hfail
        have hp0 : pu32 s = none := by simp [pu32, hs0]
        have hpn : (pu32 s).isNone = true := by simp [hp0]
        have hvn : i < B3.length := by rw [hlen3]; exact hvalid
        show load_ldt fn (([l1, l2, l3, l4, l5, l6, l7, l8, l9, l10, l11, l12, l13, l14, l15, l16, l17, l18, l19, l20, l21, l22, l23, l24, l25, l26] ++
          (B1 ++ (B2 ++ (B3 ++ (B4 ++ (B5 ++ (B6 ++ (DR ++ (AC ++ (AG ++ (LID ++ rem0))))))))))).set
          (26 + (2 * parsedOr pu32 0 l26 + i)) s) = _
        rw [set_skip (show ([l1, l2, l3, l4, l5, l6, l7, l8, l9, l10, l11, l12, l13, l14, l15, l16, l17, l18, l19, l20, l21, l22, l23, l24, l25, l26] :
          List String).length = 26 from rfl)]
        rw [show 2 * parsedOr pu32 0 l26 + i = parsedOr pu32 0 l26 + (parsedOr pu32 0 l26 + i) from by ring]
        rw [set_skip hlen1, set_skip hlen2, set_here hvn]
        have hlen3s : (B3.set i s).length = parsedOr pu32 0 l26 := by
          rw [List.length_set]; exact hlen3
        show load_ldt fn (l1 :: l2 :: l3 :: l4 :: l5 :: l6 :: l7 :: l8 :: l9 :: l10 :: l11 :: l12 :: l13 :: l14 :: l15 :: l16 :: l17 :: l18 :: l19 :: l20 :: l21 :: l22 :: l23 :: l24 :: l25 :: l26 ::
      (B1 ++ (B2 ++ ((B3.set i s) ++ (B4 ++ (B5 ++ (B6 ++ (DR ++ (AC ++ (AG ++ (LID ++ rem0))))))))))) = _
        unfold load_ldt
        rw [load_run_eval fn hc hlen1 hlen2 hlen3s hlen4 hlen5 hlen6 hlen7 hlen8 hlen9 hlen10 false]
        rw [List.map_set]
        rw [show parsedOr pu32 0 s = (0 : Nat) from by simp [parsedOr, hp0]]
        obtain ⟨e0, hget, hset⟩ := zipLamps_set3 (B1.map (parsedOr stoi? 0)) B2
          (B3.map (parsedOr pu32 0)) (B4.map (parsedOr pu32 0))
          (B5.map (parsedOr pu32 0)) (B6.map (parsedOr stof? 0))
          (by simp only [List.length_map]; rw [hlen1, hlen2])
          (by simp only [List.length_map]; rw [hlen1, hlen3])
          (by simp only [List.length_map]; rw [hlen1, hlen4])
          (by simp only [List.length_map]; rw [hlen1, hlen5])
          (by simp only [List.length_map]; rw [hlen1, hlen6])
          i (by simp only [List.length_map]; rw [hlen1]; exact hvalid) 0
        rw [hset]
        simp only [NumPos.zero, setLamp, hget, anyFail_set hvn hpn,
          Bool.or_true, Bool.true_or, if_true]
      | lampCt i =>
        have hs0 : stoi? s = none := Option.isNone_iff_eq_none.mp hfail
        have hp0 : pu32 s = none := by simp [pu32, hs0]
        have hpn : (pu32 s).isNone = true := by simp [hp0]
        have hvn : i < B4.length := by rw [hlen4]; exact hvalid
        show load_ldt fn (([l1, l2, l3, l4, l5, l6, l7, l8, l9, l10, l11, l12, l13, l14, l15, l16, l17, l18, l19, l20, l21, l22, l23, l24, l25, l26] ++
          (B1 ++ (B2 ++ (B3 ++ (B4 ++ (B5 ++ (B6 ++ (DR ++ (AC ++ (AG ++ (LID ++ rem0))))))))))).set
          (26 + (3 * parsedOr pu32 0 l26 + i)) s) = _
        rw [set_skip (show ([l1, l2, l3, l4, l5, l6, l7, l8, l9, l10, l11, l12, l13, l14, l15, l16, l17, l18, l19, l20, l21, l22, l23, l24, l25, l26] :
          List String).length = 26 from rfl)]
        rw [show 3 * parsedOr pu32 0 l26 + i = parsedOr pu32 0 l26 + (parsedOr pu32 0 l26 + (parsedOr pu32 0 l26 + i)) from by ring]
        rw [set_skip hlen1, set_skip hlen2, set_skip hlen3, set_here hvn]
        have hlen4s : (B4.set i s).length = parsedOr pu32 0 l26 := by
          rw [List.length_set]; exact hlen4
        show load_ldt fn (l1 :: l2 :: l3 :: l4 :: l5 :: l6 :: l7 :: l8 :: l9 :: l10 :: l11 :: l12 :: l13 :: l14 :: l15 :: l16 :: l17 :: l18 :: l19 :: l20 :: l21 :: l22 :: l23 :: l24 :: l25 :: l26 ::
      (B1 ++ (B2 ++ (B3 ++ ((B4.set i s) ++ (B5 ++ (B6 ++ (DR ++ (AC ++ (AG ++ (LID ++ rem0))))))))))) = _
        unfold load_ldt
        rw [load_run_eval fn hc hlen1 hlen2 hlen3 hlen4s hlen5 hlen6 hlen7 hlen8 hlen9 hlen10 false]
        rw [List.map_set]
        rw [show parsedOr pu32 0 s = (0 : Nat) from by simp [parsedOr, hp0]]
        obtain ⟨e0, hget, hset⟩ := zipLamps_set4 (B1.map (parsedOr stoi? 0)) B2
          (B3.map (parsedOr pu32 0)) (B4.map (parsedOr pu32 0))
          (B5.map (parsedOr pu32 0)) (B6.map (parsedOr stof? 0))
          (by simp only [List.length_map]; rw [hlen1, hlen2])
          (by simp only [List.length_map]; rw [hlen1, hlen3])
          (by simp only [List.length_map]; rw [hlen1, hlen4])
          (by simp only [List.length_map]; rw [hlen1, hlen5])
          (by simp only [List.length_map]; rw [hlen1, hlen6])
          i (by simp only [List.length_map]; rw [hlen1]; exact hvalid) 0
        rw [hset]
        simp only [NumPos.zero, setLamp, hget, anyFail_set hvn hpn,
          Bool.or_true, Bool.true_or, if_true]
      | lampCrg i =>
        have hs0 : stoi? s = none := Option.isNone_iff_eq_none.mp hfail
        have hp0 : pu32 s = none := by simp [pu32, hs0]
        have hpn : (pu32 s).isNone = true := by simp [hp0]
        have hvn : i < B5.length := by rw [hlen5]; exact hvalid
        show load_ldt fn (([l1, l2, l3, l4, l5, l6, l7, l8, l9, l10, l11, l12, l13, l14, l15, l16, l17, l18, l19, l20, l21, l22, l23, l24, l25, l26] ++
          (B1 ++ (B2 ++ (B3 ++ (B4 ++ (B5 ++ (B6 ++ (DR ++ (AC ++ (AG ++ (LID ++ rem0))))))))))).set
          (26 + (4 * parsedOr pu32 0 l26 + i)) s) = _
        rw [set_skip (show ([l1, l2, l3, l4, l5, l6, l7, l8, l9, l10, l11, l12, l13, l14, l15, l16, l17, l18, l19, l20, l21, l22, l23, l24, l25, l26] :
          List String).length = 26 from rfl)]
        rw [show 4 * parsedOr pu32 0 l26 + i = parsedOr pu32 0 l26 + (parsedOr pu32 0 l26 + (parsedOr pu32 0 l26 + (parsedOr pu32 0 l26 + i))) from by ring]
        rw [set_skip hlen1, set_skip hlen2, set_skip hlen3, set_skip hlen4, set_here hvn]
        have hlen5s : (B5.set i s).length = parsedOr pu32 0 l26 := by
          rw [List.length_set]; exact hlen5
        show load_ldt fn (l1 :: l2 :: l3 :: l4 :: l5 :: l6 :: l7 :: l8 :: l9 :: l10 :: l11 :: l12 :: l13 :: l14 :: l15 :: l16 :: l17 :: l18 :: l19 :: l20 :: l21 :: l22 :: l23 :: l24 :: l25 :: l26 ::
      (B1 ++ (B2 ++ (B3 ++ (B4 ++ ((B5.set i s) ++ (B6 ++ (DR ++ (AC ++ (AG ++ (LID ++ rem0))))))))))) = _
        unfold load_ldt
        rw [load_run_eval fn hc hlen1 hlen2 hlen3 hlen4 hlen5s hlen6 hlen7 hlen8 hlen9 hlen10 false]
        rw [List.map_set]
        rw [show parsedOr pu32 0 s = (0 : Nat) from by simp [parsedOr, hp0]]
        obtain ⟨e0, hget, hset⟩ := zipLamps_set5 (B1.map (parsedOr stoi? 0)) B2
          (B3.map (parsedOr pu32 0)) (B4.map (parsedOr pu32 0))
          (B5.map (parsedOr pu32 0)) (B6.map (parsedOr stof? 0))
          (by simp only [List.length_map]; rw [hlen1, hlen2])
          (by simp only [List.length_map]; rw [hlen1, hlen3])
          (by simp only [List.length_map]; rw [hlen1, hlen4])
          (by simp only [List.length_map]; rw [hlen1, hlen5])
          (by simp only [List.length_map]; rw [hlen1, hlen6])
          i (by simp only [List.length_map]; rw [hlen1]; exact hvalid) 0
        rw [hset]
        simp only [NumPos.zero, setLamp, hget, anyFail_set hvn hpn,
          Bool.or_true, Bool.true_or, if_true]
      | lampWatt i =>
        have hs0 : stof? s = none := Option.isNone_iff_eq_none.mp hfail
        have hvn : i < B6.length := by rw [hlen6]; exact hvalid
        show load_ldt fn (([l1, l2, l3, l4, l5, l6, l7, l8, l9, l10, l11, l12, l13, l14, l15, l16, l17, l18, l19, l20, l21, l22, l23, l24, l25, l26] ++
          (B1 ++ (B2 ++ (B3 ++ (B4 ++ (B5 ++ (B6 ++ (DR ++ (AC ++ (AG ++ (LID ++ rem0))))))))))).set
          (26 + (5 * parsedOr pu32 0 l26 + i)) s) = _
        rw [set_skip (show ([l1, l2, l3, l4, l5, l6, l7, l8, l9, l10, l11, l12, l13, l14, l15, l16, l17, l18, l19, l20, l21, l22, l23, l24, l25, l26] :
          List String).length = 26 from rfl)]
        rw [show 5 * parsedOr pu32 0 l26 + i = parsedOr pu32 0 l26 + (parsedOr pu32 0 l26 + (parsedOr pu32 0 l26 + (parsedOr pu32 0 l26 + (parsedOr pu32 0 l26 + i)))) from by ring]
        rw [set_skip hlen1, set_skip hlen2, set_skip hlen3, set_skip hlen4, set_skip hlen5, set_here hvn]
        have hlen6s : (B6.set i s).length = parsedOr pu32 0 l26 := by
          rw [List.length_set]; exact hlen6
        show load_ldt fn (l1 :: l2 :: l3 :: l4 :: l5 :: l6 :: l7 :: l8 :: l9 :: l10 :: l11 :: l12 :: l13 :: l14 :: l15 :: l16 :: l17 :: l18 :: l19 :: l20 :: l21 :: l22 :: l23 :: l24 :: l25 :: l26 ::
      (B1 ++ (B2 ++ (B3 ++ (B4 ++ (B5 ++ ((B6.set i s) ++ (DR ++ (AC ++ (AG ++ (LID ++ rem0))))))))))) = _
        unfold load_ldt
        rw [load_run_eval fn hc hlen1 hlen2 hlen3 hlen4 hlen5 hlen6s hlen7 hlen8 hlen9 hlen10 false]
        rw [List.map_set]
        rw [show parsedOr stof? 0 s = (0 : FPN) from by simp [parsedOr, hs0]]
        obtain ⟨e0, hget, hset⟩ := zipLamps_set6 (B1.map (parsedOr stoi? 0)) B2
          (B3.map (parsedOr pu32 0)) (B4.map (parsedOr pu32 0))
          (B5.map (parsedOr pu32 0)) (B6.map (parsedOr stof? 0))
          (by simp only [List.length_map]; rw [hlen1, hlen2])
          (by simp only [List.length_map]; rw [hlen1, hlen3])
          (by simp only [List.length_map]; rw [hlen1, hlen4])
          (by simp only [List.length_map]; rw [hlen1, hlen5])
          (by simp only [List.length_map]; rw [hlen1, hlen6])
          i (by simp only [List.length_map]; rw [hlen1]; exact hvalid) 0
        rw [hset]
        simp only [NumPos.zero, setLamp, hget, anyFail_set hvn hfail,
          Bool.or_true, Bool.true_or, if_true]
      | drv i =>
        have hs0 : stof? s = none := Option.isNone_iff_eq_none.mp hfail
        have hvn : i < DR.length := by rw [hlen7]; exact hvalid
        show load_ldt fn (([l1, l2, l3, l4, l5, l6, l7, l8, l9, l10, l11, l12, l13, l14, l15, l16, l17, l18, l19, l20, l21, l22, l23, l24, l25, l26] ++
          (B1 ++ (B2 ++ (B3 ++ (B4 ++ (B5 ++ (B6 ++ (DR ++ (AC ++ (AG ++ (LID ++ rem0))))))))))).set
          (26 + (6 * parsedOr pu32 0 l26 + i)) s) = _
        rw [set_skip (show ([l1, l2, l3, l4, l5, l6, l7, l8, l9, l10, l11, l12, l13, l14, l15, l16, l17, l18, l19, l20, l21, l22, l23, l24, l25, l26] :
          List String).length = 26 from rfl)]
        rw [show 6 * parsedOr pu32 0 l26 + i = parsedOr pu32 0 l26 + (parsedOr pu32 0 l26 + (parsedOr pu32 0 l26 + (parsedOr pu32 0 l26 + (parsedOr pu32 0 l26 + (parsedOr pu32 0 l26 + i))))) from by ring]
        rw [set_skip hlen1, set_skip hlen2, set_skip hlen3, set_skip hlen4, set_skip hlen5, set_skip hlen6, set_here hvn]
        have hlen7s : (DR.set i s).length = 10 := by
          rw [List.length_set]; exact hlen7
        show load_ldt fn (l1 :: l2 :: l3 :: l4 :: l5 :: l6 :: l7 :: l8 :: l9 :: l10 :: l11 :: l12 :: l13 :: l14 :: l15 :: l16 :: l17 :: l18 :: l19 :: l20 :: l21 :: l22 :: l23 :: l24 :: l25 :: l26 ::
      (B1 ++ (B2 ++ (B3 ++ (B4 ++ (B5 ++ (B6 ++ ((DR.set i s) ++ (AC ++ (AG ++ (LID ++ rem0))))))))))) = _
        unfold load_ldt
        rw [load_run_eval fn hc hlen1 hlen2 hlen3 hlen4 hlen5 hlen6 hlen7s hlen8 hlen9 hlen10 false]
        rw [List.map_set]
        rw [show parsedOr stof? 0 s = (0 : FPN) from by simp [parsedOr, hs0]]
        simp only [NumPos.zero, anyFail_set hvn hfail, Bool.or_true,
          Bool.true_or, if_true]
      | acv i =>
        have hs0 : stof? s = none := Option.isNone_iff_eq_none.mp hfail
        have hvn : i < AC.length := by rw [hlen8]; exact hvalid
        show load_ldt fn (([l1, l2, l3, l4, l5, l6, l7, l8, l9, l10, l11, l12, l13, l14, l15, l16, l17, l18, l19, l20, l21, l22, l23, l24, l25, l26] ++
          (B1 ++ (B2 ++ (B3 ++ (B4 ++ (B5 ++ (B6 ++ (DR ++ (AC ++ (AG ++ (LID ++ rem0))))))))))).set
          (26 + (6 * parsedOr pu32 0 l26 + 10 + i)) s) = _
        rw [set_skip (show ([l1, l2, l3, l4, l5, l6, l7, l8, l9, l10, l11, l12, l13, l14, l15, l16, l17, l18, l19, l20, l21, l22, l23, l24, l25, l26] :
          List String).length = 26 from rfl)]
        rw [show 6 * parsedOr pu32 0 l26 + 10 + i = parsedOr pu32 0 l26 + (parsedOr pu32 0 l26 + (parsedOr pu32 0 l26 + (parsedOr pu32 0 l26 + (parsedOr pu32 0 l26 + (parsedOr pu32 0 l26 + (10 + i)))))) from by ring]
        rw [set_skip hlen1, set_skip hlen2, set_skip hlen3, set_skip hlen4, set_skip hlen5, set_skip hlen6, set_skip hlen7, set_here hvn]
        have hlen8s : (AC.set i s).length = parsedOr pu32 0 l4 := by
          rw [List.length_set]; exact hlen8
        show load_ldt fn (l1 :: l2 :: l3 :: l4 :: l5 :: l6 :: l7 :: l8 :: l9 :: l10 :: l11 :: l12 :: l13 :: l14 :: l15 :: l16 :: l17 :: l18 :: l19 :: l20 :: l21 :: l22 :: l23 :: l24 :: l25 :: l26 ::
      (B1 ++ (B2 ++ (B3 ++ (B4 ++ (B5 ++ (B6 ++ (DR ++ ((AC.set i s) ++ (AG ++ (LID ++ rem0))))))))))) = _
        unfold load_ldt
        rw [load_run_eval fn hc hlen1 hlen2 hlen3 hlen4 hlen5 hlen6 hlen7 hlen8s hlen9 hlen10 false]
        rw [List.map_set]
        rw [show parsedOr stof? 0 s = (0 : FPN) from by simp [parsedOr, hs0]]
        simp only [NumPos.zero, anyFail_set hvn hfail, Bool.or_true,
          Bool.true_or, if_true]
      | agv i =>
        have hs0 : stof? s = none := Option.isNone_iff_eq_none.mp hfail
        have hvn : i < AG.length := by rw [hlen9]; exact hvalid
        show load_ldt fn (([l1, l2, l3, l4, l5, l6, l7, l8, l9, l10, l11, l12, l13, l14, l15, l16, l17, l18, l19, l20, l21, l22, l23, l24, l25, l26] ++
          (B1 ++ (B2 ++ (B3 ++ (B4 ++ (B5 ++ (B6 ++ (DR ++ (AC ++ (AG ++ (LID ++ rem0))))))))))).set
          (26 + (6 * parsedOr pu32 0 l26 + 10 + parsedOr pu32 0 l4 + i)) s) = _
        rw [set_skip (show ([l1, l2, l3, l4, l5, l6, l7, l8, l9, l10, l11, l12, l13, l14, l15, l16, l17, l18, l19, l20, l21, l22, l23, l24, l25, l26] :
          List String).length = 26 from rfl)]
        rw [show 6 * parsedOr pu32 0 l26 + 10 + parsedOr pu32 0 l4 + i = parsedOr pu32 0 l26 + (parsedOr pu32 0 l26 + (parsedOr pu32 0 l26 + (parsedOr pu32 0 l26 + (parsedOr pu32 0 l26 + (parsedOr pu32 0 l26 + (10 + (parsedOr pu32 0 l4 + i))))))) from by ring]
        rw [set_skip hlen1, set_skip hlen2, set_skip hlen3, set_skip hlen4, set_skip hlen5, set_skip hlen6, set_skip hlen7, set_skip hlen8, set_here hvn]
        have hlen9s : (AG.set i s).length = parsedOr pu32 0 l6 := by
          rw [List.length_set]; exact hlen9
        show load_ldt fn (l1 :: l2 :: l3 :: l4 :: l5 :: l6 :: l7 :: l8 :: l9 :: l10 :: l11 :: l12 :: l13 :: l14 :: l15 :: l16 :: l17 :: l18 :: l19 :: l20 :: l21 :: l22 :: l23 :: l24 :: l25 :: l26 ::
      (B1 ++ (B2 ++ (B3 ++ (B4 ++ (B5 ++ (B6 ++ (DR ++ (AC ++ ((AG.set i s) ++ (LID ++ rem0))))))))))) = _
        unfold load_ldt
        rw [load_run_eval fn hc hlen1 hlen2 hlen3 hlen4 hlen5 hlen6 hlen7 hlen8 hlen9s hlen10 false]
        rw [List.map_set]
        rw [show parsedOr stof? 0 s = (0 : FPN) from by simp [parsedOr, hs0]]
        simp only [NumPos.zero, anyFail_set hvn hfail, Bool.or_true,
          Bool.true_or, if_true]
      | lidv i =>
        have hs0 : stof? s = none := Option.isNone_iff_eq_none.mp hfail
        have hvn : i < LID.length := by rw [hlen10]; exact hvalid
        show load_ldt fn (([l1, l2, l3, l4, l5, l6, l7, l8, l9, l10, l11, l12, l13, l14, l15, l16, l17, l18, l19, l20, l21, l22, l23, l24, l25, l26] ++
          (B1 ++ (B2 ++ (B3 ++ (B4 ++ (B5 ++ (B6 ++ (DR ++ (AC ++ (AG ++ (LID ++ rem0))))))))))).set
          (26 + (6 * parsedOr pu32 0 l26 + 10 + parsedOr pu32 0 l4 + parsedOr pu32 0 l6 + i)) s) = _
        rw [set_skip (show ([l1, l2, l3, l4, l5, l6, l7, l8, l9, l10, l11, l12, l13, l14, l15, l16, l17, l18, l19, l20, l21, l22, l23, l24, l25, l26] :
          List String).length = 26 from rfl)]
        rw [show 6 * parsedOr pu32 0 l26 + 10 + parsedOr pu32 0 l4 + parsedOr pu32 0 l6 + i = parsedOr pu32 0 l26 + (parsedOr pu32 0 l26 + (parsedOr pu32 0 l26 + (parsedOr pu32 0 l26 + (parsedOr pu32 0 l26 + (parsedOr pu32 0 l26 + (10 + (parsedOr pu32 0 l4 + (parsedOr pu32 0 l6 + i)))))))) from by ring]
        rw [set_skip hlen1, set_skip hlen2, set_skip hlen3, set_skip hlen4, set_skip hlen5, set_skip hlen6, set_skip hlen7, set_skip hlen8, set_skip hlen9, set_here hvn]
        have hlen10s : (LID.set i s).length = lidLen mc1 mc2 (parsedOr pu32 0 l6) := by
          rw [List.length_set]; exact hlen10
        show load_ldt fn (l1 :: l2 :: l3 :: l4 :: l5 :: l6 :: l7 :: l8 :: l9 :: l10 :: l11 :: l12 :: l13 :: l14 :: l15 :: l16 :: l17 :: l18 :: l19 :: l20 :: l21 :: l22 :: l23 :: l24 :: l25 :: l26 ::
      (B1 ++ (B2 ++ (B3 ++ (B4 ++ (B5 ++ (B6 ++ (DR ++ (AC ++ (AG ++ ((LID.set i s) ++ rem0))))))))))) = _
        unfold load_ldt
        rw [load_run_eval fn hc hlen1 hlen2 hlen3 hlen4 hlen5 hlen6 hlen7 hlen8 hlen9 hlen10s false]
        rw [List.map_set]
        rw [show parsedOr stof? 0 s = (0 : FPN) from by simp [parsedOr, hs0]]
        simp only [NumPos.zero, anyFail_set hvn hfail, Bool.or_true,
          Bool.true_or, if_true]
    · intro pos hvalid s
      cases pos with
      | manufacturer =>
        show load_ldt fn (s :: l2 :: l3 :: l4 :: l5 :: l6 :: l7 :: l8 :: l9 :: l10 :: l11 :: l12 :: l13 :: l14 :: l15 :: l16 :: l17 :: l18 :: l19 :: l20 :: l21 :: l22 :: l23 :: l24 :: l25 :: l26 ::
      (B1 ++ (B2 ++ (B3 ++ (B4 ++ (B5 ++ (B6 ++ (DR ++ (AC ++ (AG ++ (LID ++ rem0))))))))))) = _
        unfold load_ldt
        rw [load_run_eval fn hc hlen1 hlen2 hlen3 hlen4 hlen5 hlen6 hlen7 hlen8 hlen9 hlen10 false]
        simp only [StrPos.store]
      | mrn =>
        show load_ldt fn (l1 :: l2 :: l3 :: l4 :: l5 :: l6 :: l7 :: s :: l9 :: l10 :: l11 :: l12 :: l13 :: l14 :: l15 :: l16 :: l17 :: l18 :: l19 :: l20 :: l21 :: l22 :: l23 :: l24 :: l25 :: l26 ::
      (B1 ++ (B2 ++ (B3 ++ (B4 ++ (B5 ++ (B6 ++ (DR ++ (AC ++ (AG ++ (LID ++ rem0))))))))))) = _
        unfold load_ldt
        rw [load_run_eval fn hc hlen1 hlen2 hlen3 hlen4 hlen5 hlen6 hlen7 hlen8 hlen9 hlen10 false]
        simp only [StrPos.store]
      | lname =>
        show load_ldt fn (l1 :: l2 :: l3 :: l4 :: l5 :: l6 :: l7 :: l8 :: s :: l10 :: l11 :: l12 :: l13 :: l14 :: l15 :: l16 :: l17 :: l18 :: l19 :: l20 :: l21 :: l22 :: l23 :: l24 :: l25 :: l26 ::
      (B1 ++ (B2 ++ (B3 ++ (B4 ++ (B5 ++ (B6 ++ (DR ++ (AC ++ (AG ++ (LID ++ rem0))))))))))) = _
        unfold load_ldt
        rw [load_run_eval fn hc hlen1 hlen2 hlen3 hlen4 hlen5 hlen6 hlen7 hlen8 hlen9 hlen10 false]
        simp only [StrPos.store]
      | lnum =>
        show load_ldt fn (l1 :: l2 :: l3 :: l4 :: l5 :: l6 :: l7 :: l8 :: l9 :: s :: l11 :: l12 :: l13 :: l14 :: l15 :: l16 :: l17 :: l18 :: l19 :: l20 :: l21 :: l22 :: l23 :: l24 :: l25 :: l26 ::
      (B1 ++ (B2 ++ (B3 ++ (B4 ++ (B5 ++ (B6 ++ (DR ++ (AC ++ (AG ++ (LID ++ rem0))))))))))) = _
        unfold load_ldt
        rw [load_run_eval fn hc hlen1 hlen2 hlen3 hlen4 hlen5 hlen6 hlen7 hlen8 hlen9 hlen10 false]
        simp only [StrPos.store]
      | fname =>
        show load_ldt fn (l1 :: l2 :: l3 :: l4 :: l5 :: l6 :: l7 :: l8 :: l9 :: l10 :: s :: l12 :: l13 :: l14 :: l15 :: l16 :: l17 :: l18 :: l19 :: l20 :: l21 :: l22 :: l23 :: l24 :: l25 :: l26 ::
      (B1 ++ (B2 ++ (B3 ++ (B4 ++ (B5 ++ (B6 ++ (DR ++ (AC ++ (AG ++ (LID ++ rem0))))))))))) = _
        unfold load_ldt
        rw [load_run_eval fn hc hlen1 hlen2 hlen3 hlen4 hlen5 hlen6 hlen7 hlen8 hlen9 hlen10 false]
        simp only [StrPos.store]
      | duser =>
        show load_ldt fn (l1 :: l2 :: l3 :: l4 :: l5 :: l6 :: l7 :: l8 :: l9 :: l10 :: l11 :: s :: l13 :: l14 :: l15 :: l16 :: l17 :: l18 :: l19 :: l20 :: l21 :: l22 :: l23 :: l24 :: l25 :: l26 ::
      (B1 ++ (B2 ++ (B3 ++ (B4 ++ (B5 ++ (B6 ++ (DR ++ (AC ++ (AG ++ (LID ++ rem0))))))))))) = _
        unfold load_ldt
        rw [load_run_eval fn hc hlen1 hlen2 hlen3 hlen4 hlen5 hlen6 hlen7 hlen8 hlen9 hlen10 false]
        simp only [StrPos.store]
      | lampType i =>
        have hvn : i < B2.length := by rw [hlen2]; exact hvalid
        show load_ldt fn (([l1, l2, l3, l4, l5, l6, l7, l8, l9, l10, l11, l12, l13, l14, l15, l16, l17, l18, l19, l20, l21, l22, l23, l24, l25, l26] ++
          (B1 ++ (B2 ++ (B3 ++ (B4 ++ (B5 ++ (B6 ++ (DR ++ (AC ++ (AG ++ (LID ++ rem0))))))))))).set
          (26 + (parsedOr pu32 0 l26 + i)) s) = _
        rw [set_skip (show ([l1, l2, l3, l4, l5, l6, l7, l8, l9, l10, l11, l12, l13, l14, l15, l16, l17, l18, l19, l20, l21, l22, l23, l24, l25, l26] :
          List String).length = 26 from rfl)]
        rw [set_skip hlen1, set_here hvn]
        have hlen2s : (B2.set i s).length = parsedOr pu32 0 l26 := by
          rw [List.length_set]; exact hlen2
        show load_ldt fn (l1 :: l2 :: l3 :: l4 :: l5 :: l6 :: l7 :: l8 :: l9 :: l10 :: l11 :: l12 :: l13 :: l14 :: l15 :: l16 :: l17 :: l18 :: l19 :: l20 :: l21 :: l22 :: l23 :: l24 :: l25 :: l26 ::
      (B1 ++ ((B2.set i s) ++ (B3 ++ (B4 ++ (B5 ++ (B6 ++ (DR ++ (AC ++ (AG ++ (LID ++ rem0))))))))))) = _
        unfold load_ldt
        rw [load_run_eval fn hc hlen1 hlen2s hlen3 hlen4 hlen5 hlen6 hlen7 hlen8 hlen9 hlen10 false]
        obtain ⟨e0, hget, hset⟩ := zipLamps_set2 (B1.map (parsedOr stoi? 0)) B2
          (B3.map (parsedOr pu32 0)) (B4.map (parsedOr pu32 0))
          (B5.map (parsedOr pu32 0)) (B6.map (parsedOr stof? 0))
          (by simp only [List.length_map]; rw [hlen1, hlen2])
          (by simp only [List.length_map]; rw [hlen1, hlen3])
          (by simp only [List.length_map]; rw [hlen1, hlen4])
          (by simp only [List.length_map]; rw [hlen1, hlen5])
          (by simp only [List.length_map]; rw [hlen1, hlen6])
          i (by simp only [List.length_map]; rw [hlen1]; exact hvalid) s
        rw [hset]
        simp only [StrPos.store, setLamp, hget]

/-- C7 (counterexample): the claim as stated fails when the replaced numeric
line is a count line: replacing the sample-count (`Ng`) line of the minimal
valid file with `"x"` still decodes with the warning and `ng = 0`, but
`angles_g` becomes empty while the original decode had one entry — not every
other field equals its original value. -/
theorem C7_counterexample :
    load_ldt "f.ldt" FMin = .ok (recMin, none) ∧
    (load_ldt "f.ldt" (FMin.set 5 "x")).map
      (fun p => (p.1.ng, p.1.angles_g, p.2)) = .ok (0, [], some warnMsg) ∧
    recMin.angles_g ≠ [] := by
  refine ⟨by decide, by decide, by decide⟩

/-- C7 (witness): the theorem applied to the minimal valid file with the
`Dc` line replaced by `"x"`. -/
theorem C7_witness :
    load_ldt "f.ldt" (FMin.set (NumPos.idx NumPos.dc recMin) "x") =
      .ok (NumPos.zero NumPos.dc recMin, some warnMsg) :=
  ( C7_theorem "f.ldt" FMin recMin none (by decide)).2.1 NumPos.dc trivial "x"
    (by decide)
